import Mathlib

/-!
# Packet lifecycle of the IBC channel keeper

A shallow embedding of `x/ibc/04-channel/keeper/packet.go` (`SendPacket`,
`RecvPacket`, `CleanupPacket`) as functions from a store state and arguments
to an outcome that carries the store as the call leaves it.

Unsigned 64-bit values are natural numbers; the one arithmetic operation of
the file, `++` on a `uint64`, is `uint64Inc`, taken modulo `2 ^ 64`.
-/

namespace IBC

/-! ## Data model -/

/-- A byte. -/
abbrev Byte := Fin 256

/-- A Go byte slice.  The nil slice and the empty slice are both the empty
list: the code only applies `bytes.Equal` and `len` to slices, and neither
tells the two apart. -/
abbrev Bytes := List Byte

/-- Modelled from the spec: the channel states of `types.State` (the type
declaration is not among the sources), `state ∈ {INIT, TRYOPEN, OPEN, CLOSED}`. -/
inductive ChannelState where
  | INIT
  | TRYOPEN
  | OPEN
  | CLOSED
  deriving DecidableEq, Repr

/-- Modelled from the spec: the channel orderings of `types.Order` (the type
declaration is not among the sources), `ordering ∈ {ORDERED, UNORDERED}`;
`INVALID` stands for every other value of the underlying Go type, the
"unrecognized ordering value" of the error taxonomy. -/
inductive Order where
  | ORDERED
  | UNORDERED
  | INVALID
  deriving DecidableEq, Repr

/-- Modelled from the spec: the connection states of `ics03types.State` (the
type declaration is not among the sources), `state ∈ {NONE, INIT, TRYOPEN, OPEN}`. -/
inductive ConnectionState where
  | NONE
  | INIT
  | TRYOPEN
  | OPEN
  deriving DecidableEq, Repr

/-- The counterparty end of a channel: `channel.Counterparty`. -/
structure Counterparty where
  PortID : String
  ChannelID : String
  deriving DecidableEq, Repr

/-- A channel end, with the four fields the packet code reads. -/
structure Channel where
  State : ChannelState
  Ordering : Order
  Counterparty : Counterparty
  ConnectionHops : List String
  deriving DecidableEq, Repr

/-- A connection end, with the two fields the packet code reads. -/
structure ConnectionEnd where
  State : ConnectionState
  ClientID : String
  deriving DecidableEq, Repr

/-- A consensus state of a light client; the packet code only calls
`GetHeight()` on it. -/
structure ConsensusState where
  Height : Nat
  deriving DecidableEq, Repr

/-- A capability key; the packet code only checks that one is stored. -/
structure CapabilityKey where
  name : String
  deriving DecidableEq, Repr

/-- The values behind the accessors of `exported.PacketI`.  `Sequence` and
`TimeoutHeight` are `uint64` in the source. -/
structure Packet where
  Sequence : Nat
  TimeoutHeight : Nat
  SourcePort : String
  SourceChannel : String
  DestPort : String
  DestChannel : String
  Data : Bytes
  deriving DecidableEq, Repr

/-- A commitment proof (`ics23.Proof`); the packet code hands it to the
verifier unread. -/
abbrev Proof := Bytes

/-- Modelled from the spec: the key paths `types.ChannelPath`,
`types.NextSequenceRecvPath` and `types.PacketAcknowledgementPath` (their
definitions are not among the sources), "deterministic, canonical byte-string
paths derived from the tuple". -/
inductive Path where
  | ChannelPath (portID channelID : String)
  | NextSequenceRecvPath (portID channelID : String)
  | PacketAcknowledgementPath (portID channelID : String) (sequence : Nat)
  deriving DecidableEq, Repr

/-- Modelled from the spec: the key-value state behind the keeper accessors
(`keeper.go` and the connection and client keepers are not among the sources):
"Store get/set/delete keyed by: Channel(port,channel); Connection(connectionID);
CapabilityMarker(port,channel); NextSequenceSend(port,channel);
NextSequenceRecv(port,channel); PacketCommitment(port,channel,sequence);
PacketAcknowledgement(port,channel,sequence)", and the consensus states of the
ConsensusStateProvider keyed by client. `none` is an absent key. -/
structure Store where
  channels : String × String → Option Channel
  capabilities : String × String → Option CapabilityKey
  connections : String → Option ConnectionEnd
  consensusStates : String → Option ConsensusState
  nextSequenceSend : String × String → Option Nat
  nextSequenceRecv : String × String → Option Nat
  packetCommitments : String × String × Nat → Option Bytes
  packetAcknowledgements : String × String × Nat → Option Bytes

/-- The part of `sdk.Context` the packet code reads: the block height (an
`int64`) and the store. -/
structure Context where
  BlockHeight : Int
  store : Store

/-- The errors the three operations return, one constructor for each
`errors.New` message of `packet.go`. -/
inductive PacketError where
  /-- The message "channel not found". -/
  | channelNotFound
  /-- The message "channel is not open" (CleanupPacket). -/
  | channelIsNotOpen
  /-- The message "channel is closed" (SendPacket). -/
  | channelIsClosed
  /-- The message "channel not open" (RecvPacket). -/
  | channelNotOpen
  /-- The message "channel capability key not found". -/
  | channelCapabilityKeyNotFound
  /-- The message "invalid packet destination port". -/
  | invalidPacketDestinationPort
  /-- The message "invalid packet destination channel". -/
  | invalidPacketDestinationChannel
  /-- The message "invalid packet source port". -/
  | invalidPacketSourcePort
  /-- The message "invalid packet source channel". -/
  | invalidPacketSourceChannel
  /-- The message "connection not found". -/
  | connectionNotFound
  /-- The message "connection is closed" (SendPacket). -/
  | connectionIsClosed
  /-- The message "connection is not open" (RecvPacket). -/
  | connectionIsNotOpen
  /-- The message "consensus state not found". -/
  | consensusStateNotFound
  /-- The message "invalid height". -/
  | invalidHeight
  /-- The message "packet receive timeout". -/
  | packetReceiveTimeout
  /-- The message "next seq send counter not found". -/
  | nextSeqSendCounterNotFound
  /-- The message "next seq receive counter not found". -/
  | nextSeqReceiveCounterNotFound
  /-- The message "invalid packet sequence". -/
  | invalidPacketSequence
  /-- The message "packet already received". -/
  | packetAlreadyReceived
  /-- The message "packet hasn't been sent". -/
  | packetHasntBeenSent
  /-- The message "failed packet verification". -/
  | failedPacketVerification
  /-- The message "counterparty channel doesn't match the expected one". -/
  | counterpartyChannelDoesntMatch
  deriving DecidableEq, Repr

/-- The error taxonomy of the specification (section 7). -/
inductive ErrorKind where
  | NotFound
  | InvalidState
  | Mismatch
  | SequenceViolation
  | Expired
  | CommitmentMismatch
  | ProofFailure
  deriving DecidableEq, Repr

/-- The taxonomy class of each returned error, following the wording of
section 7 of the specification. -/
def PacketError.kind : PacketError → ErrorKind
  | .channelNotFound => .NotFound
  | .channelCapabilityKeyNotFound => .NotFound
  | .connectionNotFound => .NotFound
  | .consensusStateNotFound => .NotFound
  | .nextSeqSendCounterNotFound => .NotFound
  | .nextSeqReceiveCounterNotFound => .NotFound
  | .channelIsNotOpen => .InvalidState
  | .channelIsClosed => .InvalidState
  | .channelNotOpen => .InvalidState
  | .connectionIsClosed => .InvalidState
  | .connectionIsNotOpen => .InvalidState
  | .invalidPacketDestinationPort => .Mismatch
  | .invalidPacketDestinationChannel => .Mismatch
  | .invalidPacketSourcePort => .Mismatch
  | .invalidPacketSourceChannel => .Mismatch
  | .invalidPacketSequence => .SequenceViolation
  | .packetAlreadyReceived => .SequenceViolation
  | .invalidHeight => .Expired
  | .packetReceiveTimeout => .Expired
  | .packetHasntBeenSent => .CommitmentMismatch
  | .failedPacketVerification => .ProofFailure
  | .counterpartyChannelDoesntMatch => .ProofFailure

/-- The abrupt faults of `packet.go`. -/
inductive Fault where
  /-- The run-time fault of `channel.ConnectionHops[0]` on an empty slice. -/
  | indexOutOfRange
  /-- The fault `panic("invalid channel ordering type")`. -/
  | invalidChannelOrderingType
  deriving DecidableEq, Repr

/-- What a call does: it returns a value with a nil error, returns a non-nil
error, or faults.  The first two carry the store as the call leaves it. -/
inductive Outcome (α : Type) where
  | ok (store : Store) (value : α)
  | error (store : Store) (err : PacketError)
  | fault (f : Fault)

namespace Outcome

/-- Whether the call returned a nil error. -/
def isOk {α : Type} : Outcome α → Bool
  | ok _ _ => true
  | _ => false

/-- The error the call returned, if it returned one. -/
def err? {α : Type} : Outcome α → Option PacketError
  | error _ e => some e
  | _ => none

/-- The store the call left behind, if it returned at all. -/
def store? {α : Type} : Outcome α → Option Store
  | ok s _ => some s
  | error s _ => some s
  | fault _ => none

/-- The value the call returned beside a nil error. -/
def value? {α : Type} : Outcome α → Option α
  | ok _ v => some v
  | _ => none

end Outcome

/-- Modelled from the spec: the ProofVerifier behind
`connectionKeeper.VerifyMembership` (the connection keeper is not among the
sources), an external collaborator "treated as a pure predicate" of the
connection, the proof height, the proof, the key path and the expected value. -/
structure Keeper where
  VerifyMembership : ConnectionEnd → Nat → Proof → Path → Bytes → Bool

/-! ## Keeper accessors -/

/-- The increment `x++` of a `uint64`. -/
def uint64Inc (x : Nat) : Nat := (x + 1) % 2 ^ 64

/-- The conversion `uint64(h)` of an `int64`. -/
def uint64OfInt64 (h : Int) : Nat := (h % 2 ^ 64).toNat

/-- The big-endian byte of weight `256 ^ i` of `n`. -/
def byteAt (n i : Nat) : Byte := ⟨n / 256 ^ i % 256, Nat.mod_lt _ (by decide)⟩

/-- Modelled from the spec: `sdk.Uint64ToBigEndian` (not among the sources),
the 8-byte big-endian encoding of a `uint64`. -/
def Uint64ToBigEndian (n : Nat) : Bytes :=
  [byteAt n 7, byteAt n 6, byteAt n 5, byteAt n 4, byteAt n 3, byteAt n 2, byteAt n 1, byteAt n 0]

/-- Modelled from the spec: `k.GetChannel`, a store get. -/
def GetChannel (ctx : Context) (portID channelID : String) : Option Channel :=
  ctx.store.channels (portID, channelID)

/-- Modelled from the spec: `k.GetChannelCapability`, a store get. -/
def GetChannelCapability (ctx : Context) (portID channelID : String) : Option CapabilityKey :=
  ctx.store.capabilities (portID, channelID)

/-- Modelled from the spec: `k.connectionKeeper.GetConnection`, a store get. -/
def GetConnection (ctx : Context) (connectionID : String) : Option ConnectionEnd :=
  ctx.store.connections connectionID

/-- Modelled from the spec: `k.clientKeeper.GetConsensusState`, the
ConsensusStateProvider. -/
def GetConsensusState (ctx : Context) (clientID : String) : Option ConsensusState :=
  ctx.store.consensusStates clientID

/-- Modelled from the spec: `k.GetNextSequenceSend`, a store get. -/
def GetNextSequenceSend (ctx : Context) (portID channelID : String) : Option Nat :=
  ctx.store.nextSequenceSend (portID, channelID)

/-- Modelled from the spec: `k.GetNextSequenceRecv`, a store get. -/
def GetNextSequenceRecv (ctx : Context) (portID channelID : String) : Option Nat :=
  ctx.store.nextSequenceRecv (portID, channelID)

/-- Modelled from the spec: `k.GetPacketCommitment`, a store get.  The call
site `commitment := k.GetPacketCommitment(...)` takes one byte slice and no
`found` flag, so an absent key gives the nil slice of a store get. -/
def GetPacketCommitment (ctx : Context) (portID channelID : String) (sequence : Nat) : Bytes :=
  (ctx.store.packetCommitments (portID, channelID, sequence)).getD []

/-- Modelled from the spec: `k.SetNextSequenceSend`, a store set. -/
def SetNextSequenceSend (s : Store) (portID channelID : String) (v : Nat) : Store :=
  { s with nextSequenceSend := Function.update s.nextSequenceSend (portID, channelID) (some v) }

/-- Modelled from the spec: `k.SetNextSequenceRecv`, a store set. -/
def SetNextSequenceRecv (s : Store) (portID channelID : String) (v : Nat) : Store :=
  { s with nextSequenceRecv := Function.update s.nextSequenceRecv (portID, channelID) (some v) }

/-- Modelled from the spec: `k.SetPacketCommitment`, a store set. -/
def SetPacketCommitment (s : Store) (portID channelID : String) (sequence : Nat)
    (data : Bytes) : Store :=
  { s with packetCommitments :=
      Function.update s.packetCommitments (portID, channelID, sequence) (some data) }

/-- Modelled from the spec: `k.deletePacketCommitment`, a store delete. -/
def deletePacketCommitment (s : Store) (portID channelID : String) (sequence : Nat) : Store :=
  { s with packetCommitments :=
      Function.update s.packetCommitments (portID, channelID, sequence) none }

/-- Modelled from the spec: `k.SetPacketAcknowledgement`, a store set. -/
def SetPacketAcknowledgement (s : Store) (portID channelID : String) (sequence : Nat)
    (ack : Bytes) : Store :=
  { s with packetAcknowledgements :=
      Function.update s.packetAcknowledgements (portID, channelID, sequence) (some ack) }

/-! ## The three operations -/

/-- The function `SendPacket` of `packet.go`. -/
def SendPacket (_k : Keeper) (ctx : Context) (packet : Packet) : Outcome Unit :=
  match GetChannel ctx packet.SourcePort packet.SourceChannel with
  | none => .error ctx.store .channelNotFound
  | some channel =>
    if channel.State = ChannelState.CLOSED then .error ctx.store .channelIsClosed
    else match GetChannelCapability ctx packet.SourcePort packet.SourceChannel with
    | none => .error ctx.store .channelCapabilityKeyNotFound
    | some _ =>
      if packet.DestPort ≠ channel.Counterparty.PortID then
        .error ctx.store .invalidPacketDestinationPort
      else if packet.DestChannel ≠ channel.Counterparty.ChannelID then
        .error ctx.store .invalidPacketDestinationChannel
      else match channel.ConnectionHops with
      | [] => .fault .indexOutOfRange
      | hop :: _ =>
        match GetConnection ctx hop with
        | none => .error ctx.store .connectionNotFound
        | some connection =>
          if connection.State = ConnectionState.NONE then .error ctx.store .connectionIsClosed
          else match GetConsensusState ctx connection.ClientID with
          | none => .error ctx.store .consensusStateNotFound
          | some consensusState =>
            if consensusState.Height ≥ packet.TimeoutHeight then .error ctx.store .invalidHeight
            else match GetNextSequenceSend ctx packet.SourcePort packet.SourceChannel with
            | none => .error ctx.store .nextSeqSendCounterNotFound
            | some nextSequenceSend =>
              if packet.Sequence ≠ nextSequenceSend then .error ctx.store .invalidPacketSequence
              else
                .ok (SetPacketCommitment
                      (SetNextSequenceSend ctx.store packet.SourcePort packet.SourceChannel
                        (uint64Inc nextSequenceSend))
                      packet.SourcePort packet.SourceChannel packet.Sequence packet.Data) ()

/-- The function `RecvPacket` of `packet.go`.  The acknowledgement is written
before the ordered-channel counter is read, so the errors of that last block
carry the store with the acknowledgement in it. -/
def RecvPacket (k : Keeper) (ctx : Context) (packet : Packet) (proof : Proof)
    (proofHeight : Nat) (acknowledgement : Bytes) : Outcome Packet :=
  match GetChannel ctx packet.SourcePort packet.SourceChannel with
  | none => .error ctx.store .channelNotFound
  | some channel =>
    if channel.State ≠ ChannelState.OPEN then .error ctx.store .channelNotOpen
    else match GetChannelCapability ctx packet.SourcePort packet.SourceChannel with
    | none => .error ctx.store .channelCapabilityKeyNotFound
    | some _ =>
      if packet.SourcePort ≠ channel.Counterparty.PortID then
        .error ctx.store .invalidPacketSourcePort
      else if packet.SourceChannel ≠ channel.Counterparty.ChannelID then
        .error ctx.store .invalidPacketSourceChannel
      else match channel.ConnectionHops with
      | [] => .fault .indexOutOfRange
      | hop :: _ =>
        match GetConnection ctx hop with
        | none => .error ctx.store .connectionNotFound
        | some connection =>
          if connection.State ≠ ConnectionState.OPEN then .error ctx.store .connectionIsNotOpen
          else if uint64OfInt64 ctx.BlockHeight ≥ packet.TimeoutHeight then
            .error ctx.store .packetReceiveTimeout
          else if ¬ k.VerifyMembership connection proofHeight proof
              (Path.ChannelPath packet.SourcePort packet.SourceChannel) packet.Data then
            .error ctx.store .counterpartyChannelDoesntMatch
          else
            let store1 :=
              if acknowledgement.length > 0 ∨ channel.Ordering = Order.UNORDERED then
                SetPacketAcknowledgement ctx.store packet.DestPort packet.DestChannel
                  packet.Sequence acknowledgement
              else ctx.store
            if channel.Ordering = Order.ORDERED then
              match GetNextSequenceRecv { ctx with store := store1 }
                  packet.DestPort packet.DestChannel with
              | none => .error store1 .nextSeqReceiveCounterNotFound
              | some nextSequenceRecv =>
                if packet.Sequence ≠ nextSequenceRecv then .error store1 .invalidPacketSequence
                else
                  .ok (SetNextSequenceRecv store1 packet.DestPort packet.DestChannel
                        (uint64Inc nextSequenceRecv)) packet
            else .ok store1 packet

/-- The function `CleanupPacket` of `packet.go`. -/
def CleanupPacket (k : Keeper) (ctx : Context) (packet : Packet) (proof : Proof)
    (proofHeight nextSequenceRecv : Nat) (acknowledgement : Bytes) : Outcome Packet :=
  match GetChannel ctx packet.SourcePort packet.SourceChannel with
  | none => .error ctx.store .channelNotFound
  | some channel =>
    if channel.State ≠ ChannelState.OPEN then .error ctx.store .channelIsNotOpen
    else match GetChannelCapability ctx packet.SourcePort packet.SourceChannel with
    | none => .error ctx.store .channelCapabilityKeyNotFound
    | some _ =>
      if packet.DestChannel ≠ channel.Counterparty.ChannelID then
        .error ctx.store .invalidPacketDestinationChannel
      else match channel.ConnectionHops with
      | [] => .fault .indexOutOfRange
      | hop :: _ =>
        match GetConnection ctx hop with
        | none => .error ctx.store .connectionNotFound
        | some connection =>
          if packet.DestPort ≠ channel.Counterparty.PortID then
            .error ctx.store .invalidPacketDestinationPort
          else if nextSequenceRecv ≥ packet.Sequence then
            .error ctx.store .packetAlreadyReceived
          else if ¬ (GetPacketCommitment ctx packet.SourcePort packet.SourceChannel
              packet.Sequence = packet.Data) then
            .error ctx.store .packetHasntBeenSent
          else
            match channel.Ordering with
            | Order.ORDERED =>
              if ¬ k.VerifyMembership connection proofHeight proof
                  (Path.NextSequenceRecvPath packet.DestPort packet.DestChannel)
                  (Uint64ToBigEndian nextSequenceRecv) then
                .error ctx.store .failedPacketVerification
              else
                .ok (deletePacketCommitment ctx.store packet.SourcePort packet.SourceChannel
                      packet.Sequence) packet
            | Order.UNORDERED =>
              if ¬ k.VerifyMembership connection proofHeight proof
                  (Path.PacketAcknowledgementPath packet.SourcePort packet.SourceChannel
                    packet.Sequence)
                  acknowledgement then
                .error ctx.store .failedPacketVerification
              else
                .ok (deletePacketCommitment ctx.store packet.SourcePort packet.SourceChannel
                      packet.Sequence) packet
            | Order.INVALID => .fault .invalidChannelOrderingType

/-! ## The reference definition of SendPacket (specification 4.1) -/

/-- A precondition of SendPacket: it holds (`none`) or fails with an error. -/
abbrev SendCheck := Context → Packet → Option PacketError

/-- The channel for (sourcePort, sourceChannel), or the failure of its lookup. -/
def specChannel (ctx : Context) (p : Packet) : Except PacketError Channel :=
  match ctx.store.channels (p.SourcePort, p.SourceChannel) with
  | none => .error .channelNotFound
  | some ch => .ok ch

/-- The connection the channel's first hop resolves to, or the failure to
resolve it. -/
def specConnection (ctx : Context) (p : Packet) : Except PacketError ConnectionEnd :=
  match specChannel ctx p with
  | .error e => .error e
  | .ok ch =>
    match ch.ConnectionHops.head? with
    | none => .error .connectionNotFound
    | some hop =>
      match ctx.store.connections hop with
      | none => .error .connectionNotFound
      | some conn => .ok conn

/-- Precondition 1: the channel for (sourcePort, sourceChannel) exists and its
state is not CLOSED. -/
def sendPre1 : SendCheck := fun ctx p =>
  match specChannel ctx p with
  | .error e => some e
  | .ok ch => if ch.State = ChannelState.CLOSED then some .channelIsClosed else none

/-- Precondition 2: a capability marker exists for (sourcePort, sourceChannel). -/
def sendPre2 : SendCheck := fun ctx p =>
  match ctx.store.capabilities (p.SourcePort, p.SourceChannel) with
  | none => some .channelCapabilityKeyNotFound
  | some _ => none

/-- Precondition 3: the packet's destination port and channel are the
channel's counterparty port and channel. -/
def sendPre3 : SendCheck := fun ctx p =>
  match specChannel ctx p with
  | .error e => some e
  | .ok ch =>
    if p.DestPort ≠ ch.Counterparty.PortID then some .invalidPacketDestinationPort
    else if p.DestChannel ≠ ch.Counterparty.ChannelID then
      some .invalidPacketDestinationChannel
    else none

/-- Precondition 4: the first connection hop resolves to an existing
connection whose state is not NONE. -/
def sendPre4 : SendCheck := fun ctx p =>
  match specConnection ctx p with
  | .error e => some e
  | .ok conn => if conn.State = ConnectionState.NONE then some .connectionIsClosed else none

/-- Precondition 5: a consensus state for the connection's client exists and
its height is strictly less than the packet's timeout height. -/
def sendPre5 : SendCheck := fun ctx p =>
  match specConnection ctx p with
  | .error e => some e
  | .ok conn =>
    match ctx.store.consensusStates conn.ClientID with
    | none => some .consensusStateNotFound
    | some cs => if cs.Height < p.TimeoutHeight then none else some .invalidHeight

/-- Precondition 6: NextSequenceSend exists for the channel. -/
def sendPre6 : SendCheck := fun ctx p =>
  match ctx.store.nextSequenceSend (p.SourcePort, p.SourceChannel) with
  | none => some .nextSeqSendCounterNotFound
  | some _ => none

/-- Precondition 7: the packet's sequence is NextSequenceSend exactly. -/
def sendPre7 : SendCheck := fun ctx p =>
  match ctx.store.nextSequenceSend (p.SourcePort, p.SourceChannel) with
  | none => some .nextSeqSendCounterNotFound
  | some n => if p.Sequence = n then none else some .invalidPacketSequence

/-- The seven preconditions of specification 4.1, in its order. -/
def sendPreconditions : List SendCheck :=
  [sendPre1, sendPre2, sendPre3, sendPre4, sendPre5, sendPre6, sendPre7]

/-- The effect of specification 4.1: NextSequenceSend is incremented by 1 and
a Commitment for (sourcePort, sourceChannel, sequence) holds the packet data. -/
def sendEffect (s : Store) (p : Packet) : Store :=
  { s with
    nextSequenceSend := fun key =>
      if key = (p.SourcePort, p.SourceChannel) then (s.nextSequenceSend key).map uint64Inc
      else s.nextSequenceSend key,
    packetCommitments := fun key =>
      if key = (p.SourcePort, p.SourceChannel, p.Sequence) then some p.Data
      else s.packetCommitments key }

/-- The reference definition of SendPacket, after specification 4.1: the
preconditions are checked in order, the first failure wins and leaves the
store as it was, and when all hold the effect is applied. -/
def SendPacketSpec (ctx : Context) (p : Packet) : Outcome Unit :=
  match sendPreconditions.findSome? (fun c => c ctx p) with
  | some e => .error ctx.store e
  | none => .ok (sendEffect ctx.store p) ()

/-! ## Preconditions of RecvPacket and CleanupPacket in the words of the specification -/

/-- The store after the acknowledgement step of `RecvPacket` (lines 220-225):
the acknowledgement is written when it is non-empty or the channel is
UNORDERED. -/
def recvAckStore (s : Store) (ch : Channel) (p : Packet) (acknowledgement : Bytes) : Store :=
  if acknowledgement.length > 0 ∨ ch.Ordering = Order.UNORDERED then
    SetPacketAcknowledgement s p.DestPort p.DestChannel p.Sequence acknowledgement
  else s

/-- Preconditions 1 to 6 of specification 4.2, for the channel `ch` and the
connection `conn` they name. -/
structure RecvPreconditions (k : Keeper) (ctx : Context) (p : Packet) (proof : Proof)
    (proofHeight : Nat) (ch : Channel) (conn : ConnectionEnd) : Prop where
  /-- Precondition 1: the channel for (sourcePort, sourceChannel) exists -/
  channel_exists : ctx.store.channels (p.SourcePort, p.SourceChannel) = some ch
  /-- Precondition 1, second half: its state is OPEN. -/
  channel_open : ch.State = ChannelState.OPEN
  /-- Precondition 2: a capability marker exists for that channel end. -/
  capability : (ctx.store.capabilities (p.SourcePort, p.SourceChannel)).isSome = true
  /-- Precondition 3: the source port is the counterparty port -/
  source_port : p.SourcePort = ch.Counterparty.PortID
  /-- Precondition 3, second half: the source channel is the counterparty channel. -/
  source_channel : p.SourceChannel = ch.Counterparty.ChannelID
  /-- Precondition 4: the first-hop connection exists -/
  first_hop : ch.ConnectionHops.head?.bind ctx.store.connections = some conn
  /-- Precondition 4: with state OPEN. -/
  connection_open : conn.State = ConnectionState.OPEN
  /-- Precondition 5: the local height is strictly less than the timeout height. -/
  not_expired : uint64OfInt64 ctx.BlockHeight < p.TimeoutHeight
  /-- Precondition 6: the verifier confirms the channel path maps to the packet data. -/
  proof_ok : k.VerifyMembership conn proofHeight proof
    (Path.ChannelPath p.SourcePort p.SourceChannel) p.Data = true

/-- Preconditions 1 to 6 of specification 4.3 as the specification words them,
for the channel `ch` and the connection `conn` they name. -/
structure CleanupPreconditions (ctx : Context) (p : Packet) (nextSequenceRecv : Nat)
    (ch : Channel) (conn : ConnectionEnd) : Prop where
  /-- Precondition 1: the channel for (sourcePort, sourceChannel) exists -/
  channel_exists : ctx.store.channels (p.SourcePort, p.SourceChannel) = some ch
  /-- Precondition 1, second half: its state is OPEN. -/
  channel_open : ch.State = ChannelState.OPEN
  /-- Precondition 2: a capability marker exists. -/
  capability : (ctx.store.capabilities (p.SourcePort, p.SourceChannel)).isSome = true
  /-- Precondition 3: the destination channel is the counterparty channel -/
  dest_channel : p.DestChannel = ch.Counterparty.ChannelID
  /-- Precondition 3, second half: the destination port is the counterparty port. -/
  dest_port : p.DestPort = ch.Counterparty.PortID
  /-- Precondition 4: the first-hop connection exists. -/
  first_hop : ch.ConnectionHops.head?.bind ctx.store.connections = some conn
  /-- Precondition 5: `nextSequenceRecv` is strictly greater than the packet sequence. -/
  sequence_passed : nextSequenceRecv > p.Sequence
  /-- Precondition 6: a local commitment exists and equals the packet data. -/
  commitment : ctx.store.packetCommitments (p.SourcePort, p.SourceChannel, p.Sequence) =
    some p.Data

/-- The checks `CleanupPacket` makes before it looks at the commitment (lines
32-65), for the channel `ch` and the connection `conn` they read. -/
structure CleanupReaches (ctx : Context) (p : Packet) (nextSequenceRecv : Nat)
    (ch : Channel) (conn : ConnectionEnd) : Prop where
  channel_exists : ctx.store.channels (p.SourcePort, p.SourceChannel) = some ch
  channel_open : ch.State = ChannelState.OPEN
  capability : (ctx.store.capabilities (p.SourcePort, p.SourceChannel)).isSome = true
  dest_channel : p.DestChannel = ch.Counterparty.ChannelID
  first_hop : ch.ConnectionHops.head?.bind ctx.store.connections = some conn
  dest_port : p.DestPort = ch.Counterparty.PortID
  sequence_check : ¬ (nextSequenceRecv ≥ p.Sequence)

/-- The claim `CleanupPacket` hands to the verifier on a channel of ordering
`o` (lines 73-88): the path and the value. -/
def cleanupClaim (o : Order) (p : Packet) (nextSequenceRecv : Nat) (acknowledgement : Bytes) :
    Option (Path × Bytes) :=
  match o with
  | Order.ORDERED =>
    some (Path.NextSequenceRecvPath p.DestPort p.DestChannel, Uint64ToBigEndian nextSequenceRecv)
  | Order.UNORDERED =>
    some (Path.PacketAcknowledgementPath p.SourcePort p.SourceChannel p.Sequence, acknowledgement)
  | Order.INVALID => none

/-! ## Example stores -/

/-- A keeper whose verifier accepts every claim. -/
def acceptAll : Keeper := ⟨fun _ _ _ _ _ => true⟩

/-- A keeper whose verifier rejects every claim. -/
def rejectAll : Keeper := ⟨fun _ _ _ _ _ => false⟩

/-- An open channel end on port "transfer" towards ("bank", "chan-b") over
connection "conn-0". -/
def exChannel (o : Order) : Channel :=
  { State := ChannelState.OPEN, Ordering := o,
    Counterparty := { PortID := "bank", ChannelID := "chan-b" },
    ConnectionHops := ["conn-0"] }

/-- A source-chain store: the channel ("transfer", "chan-a") with ordering `o`,
its capability, the open connection "conn-0" of client "client-0" tracked at
height 10, and `NextSequenceSend = n`. No commitment is stored. -/
def exSource (o : Order) (n : Nat) : Store :=
  { channels := fun key => if key = ("transfer", "chan-a") then some (exChannel o) else none,
    capabilities := fun key => if key = ("transfer", "chan-a") then some ⟨"cap"⟩ else none,
    connections := fun c =>
      if c = "conn-0" then some { State := ConnectionState.OPEN, ClientID := "client-0" }
      else none,
    consensusStates := fun c => if c = "client-0" then some { Height := 10 } else none,
    nextSequenceSend := fun key => if key = ("transfer", "chan-a") then some n else none,
    nextSequenceRecv := fun _ => none,
    packetCommitments := fun _ => none,
    packetAcknowledgements := fun _ => none }

/-- A packet from ("transfer", "chan-a") to ("bank", "chan-b") with timeout
height 100. -/
def exPacket (q : Nat) (data : Bytes) : Packet :=
  { Sequence := q, TimeoutHeight := 100, SourcePort := "transfer", SourceChannel := "chan-a",
    DestPort := "bank", DestChannel := "chan-b", Data := data }

/-- The channel end a destination chain stores for `exPacket`: `RecvPacket`
looks the channel up under the packet's source port and channel and requires
the same two identifiers as its counterparty. -/
def exDestChannel (o : Order) : Channel :=
  { State := ChannelState.OPEN, Ordering := o,
    Counterparty := { PortID := "transfer", ChannelID := "chan-a" },
    ConnectionHops := ["conn-1"] }

/-- The open connection "conn-1" of the destination chain. -/
def exDestConnection : ConnectionEnd :=
  { State := ConnectionState.OPEN, ClientID := "client-1" }

/-- A destination-chain store: the channel `exDestChannel o` with its
capability, the open connection "conn-1", and the receive counter `n` for
("bank", "chan-b"). No acknowledgement is stored. -/
def exDest (o : Order) (n : Option Nat) : Store :=
  { channels := fun key => if key = ("transfer", "chan-a") then some (exDestChannel o) else none,
    capabilities := fun key => if key = ("transfer", "chan-a") then some ⟨"cap"⟩ else none,
    connections := fun c => if c = "conn-1" then some exDestConnection else none,
    consensusStates := fun _ => none,
    nextSequenceSend := fun _ => none,
    nextSequenceRecv := fun key => if key = ("bank", "chan-b") then n else none,
    packetCommitments := fun _ => none,
    packetAcknowledgements := fun _ => none }

/-- The source-chain store `exSource o n` with a commitment `data` stored for
sequence `q` of ("transfer", "chan-a"). -/
def exSourceCommitted (o : Order) (n q : Nat) (data : Bytes) : Store :=
  SetPacketCommitment (exSource o n) "transfer" "chan-a" q data

/-- The open connection "conn-0" of the source chain. -/
def exSourceConnection : ConnectionEnd :=
  { State := ConnectionState.OPEN, ClientID := "client-0" }

/-! ## Traces of calls -/

/-- One call of the packet core, with the block height it runs at. -/
inductive Call where
  | send (height : Int) (packet : Packet)
  | recv (height : Int) (packet : Packet) (proof : Proof) (proofHeight : Nat)
      (acknowledgement : Bytes)
  | cleanup (height : Int) (packet : Packet) (proof : Proof) (proofHeight nextSequenceRecv : Nat)
      (acknowledgement : Bytes)

/-- The store a call leaves behind: the one its outcome carries, or the input
store when the call faults (every fault of `packet.go` comes before the first
write of its function). -/
def Call.next (k : Keeper) (s : Store) : Call → Store
  | .send h p => ((SendPacket k ⟨h, s⟩ p).store?).getD s
  | .recv h p proof proofHeight ack => ((RecvPacket k ⟨h, s⟩ p proof proofHeight ack).store?).getD s
  | .cleanup h p proof proofHeight nextSequenceRecv ack =>
    ((CleanupPacket k ⟨h, s⟩ p proof proofHeight nextSequenceRecv ack).store?).getD s

/-- The sequence number a call sends on (portID, channelID): that of its
packet when the call is a successful `SendPacket` on that channel. -/
def Call.sent (k : Keeper) (s : Store) (portID channelID : String) : Call → Option Nat
  | .send h p =>
    if p.SourcePort = portID ∧ p.SourceChannel = channelID ∧
        (SendPacket k ⟨h, s⟩ p).isOk = true then some p.Sequence
    else none
  | _ => none

/-- The sequence numbers of the successful `SendPacket` calls on
(portID, channelID) along a trace run from the store `s`, in order. -/
def sentSequences (k : Keeper) (portID channelID : String) : Store → List Call → List Nat
  | _, [] => []
  | s, c :: cs =>
    match c.sent k s portID channelID with
    | some q => q :: sentSequences k portID channelID (c.next k s) cs
    | none => sentSequences k portID channelID (c.next k s) cs

/-- A trace on the source chain: a send of sequence 1, the same send again, a
receive, a send of sequence 2, and a cleanup of sequence 1. -/
def exTrace : List Call :=
  [Call.send 5 (exPacket 1 [1, 2]),
   Call.send 6 (exPacket 1 [1, 2]),
   Call.recv 6 (exPacket 1 [1, 2]) [] 7 [9],
   Call.send 7 (exPacket 2 [3]),
   Call.cleanup 8 (exPacket 1 [1, 2]) [] 7 0 []]

/-- The fault of a call, if it faulted. -/
def Outcome.fault? {α : Type} : Outcome α → Option Fault
  | Outcome.fault f => some f
  | _ => none

/-- The destination-chain store `exDest o n` with an acknowledgement `ack`
already stored for sequence `q` of ("bank", "chan-b"). -/
def exDestAcked (o : Order) (n : Option Nat) (q : Nat) (ack : Bytes) : Store :=
  SetPacketAcknowledgement (exDest o n) "bank" "chan-b" q ack

/-! ## Further preconditions and example stores -/

/-- Preconditions 1 to 4 of specification 4.1 and the existence of the
consensus state of precondition 5: what `SendPacket` passes before it compares
the tracked height with the timeout height (lines 102-140). -/
structure SendReachesHeight (ctx : Context) (p : Packet) (ch : Channel) (conn : ConnectionEnd)
    (cs : ConsensusState) : Prop where
  channel_exists : ctx.store.channels (p.SourcePort, p.SourceChannel) = some ch
  channel_not_closed : ch.State ≠ ChannelState.CLOSED
  capability : (ctx.store.capabilities (p.SourcePort, p.SourceChannel)).isSome = true
  dest_port : p.DestPort = ch.Counterparty.PortID
  dest_channel : p.DestChannel = ch.Counterparty.ChannelID
  first_hop : ch.ConnectionHops.head?.bind ctx.store.connections = some conn
  connection_not_none : conn.State ≠ ConnectionState.NONE
  consensus_state : ctx.store.consensusStates conn.ClientID = some cs

/-- Preconditions 1 to 4 of specification 4.2: what `RecvPacket` passes before
it compares the block height with the timeout height (lines 172-206). -/
structure RecvReachesHeight (ctx : Context) (p : Packet) (ch : Channel) (conn : ConnectionEnd) :
    Prop where
  channel_exists : ctx.store.channels (p.SourcePort, p.SourceChannel) = some ch
  channel_open : ch.State = ChannelState.OPEN
  capability : (ctx.store.capabilities (p.SourcePort, p.SourceChannel)).isSome = true
  source_port : p.SourcePort = ch.Counterparty.PortID
  source_channel : p.SourceChannel = ch.Counterparty.ChannelID
  first_hop : ch.ConnectionHops.head?.bind ctx.store.connections = some conn
  connection_open : conn.State = ConnectionState.OPEN

/-- The store `s` with the channel end `ch` stored under ("transfer", "chan-a"). -/
def withChannel (s : Store) (ch : Channel) : Store :=
  { s with channels := fun key => if key = ("transfer", "chan-a") then some ch else none }

/-- The packet `exPacket q data` with timeout height 0. -/
def exPacketTimeoutZero (q : Nat) (data : Bytes) : Packet :=
  { exPacket q data with TimeoutHeight := 0 }

/-- The packet `exPacket q data` addressed to another destination port. -/
def exPacketWrongPort (q : Nat) (data : Bytes) : Packet :=
  { exPacket q data with DestPort := "other" }

/-- The source-chain store `exSourceCommitted o n q data` without any
connection. -/
def exSourceNoConnection (o : Order) (n q : Nat) (data : Bytes) : Store :=
  { exSourceCommitted o n q data with connections := fun _ => none }

end IBC

/-! # Consensus-key rotation history of the staking module

A shallow embedding of `NewConsPubKeyRotationHistory` and
`ConsPubKeyRotationHistory.Equal` of `x/staking/types/historical_info.go`. -/

namespace Staking

/-- A packed interface value, `codectypes.Any`: a type URL and the marshalled
bytes. -/
structure Any where
  TypeUrl : String
  Value : List (Fin 256)
  deriving DecidableEq, Repr

/-- A non-nil consensus public key, a value of the interface
`cryptotypes.PubKey`; the nil interface value is `none` of `Option PubKey`. -/
structure PubKey where
  typeName : String
  key : List (Fin 256)
  deriving DecidableEq, Repr

/-- A validator operator address, `sdk.ValAddress`: a byte slice. -/
abbrev ValAddress := List (Fin 256)

/-- An error returned by the packing of a key. -/
structure PackError where
  message : String
  deriving DecidableEq, Repr

/-- The record `ConsPubKeyRotationHistory`, with the four fields the
constructor fills (lines 103-108); the two keys are pointers to `Any`. -/
structure ConsPubKeyRotationHistory where
  OperatorAddress : String
  OldConsPubKey : Option Any
  NewConsPubKey : Option Any
  Height : Nat
  deriving DecidableEq, Repr

/-- The two library functions the constructor calls and the sources do not
hold: `codectypes.NewAnyWithValue`, which packs a key or returns an error, and
`ValAddress.String`. They are parameters of the embedding. -/
structure Codec where
  NewAnyWithValue : Option PubKey → Except PackError Any
  ValAddressString : ValAddress → String

/-- The function `NewConsPubKeyRotationHistory` (lines 86-109).  The first
block tests `oldConsPubKey` and packs `newConsPubKey`, as line 90 does. -/
def NewConsPubKeyRotationHistory (c : Codec) (valAddr : ValAddress)
    (oldConsPubKey newConsPubKey : Option PubKey) (height : Nat) :
    Except PackError ConsPubKeyRotationHistory :=
  let oldResult : Except PackError (Option Any) :=
    if oldConsPubKey ≠ none then
      match c.NewAnyWithValue newConsPubKey with
      | .error err => .error err
      | .ok packed => .ok (some packed)
    else .ok none
  match oldResult with
  | .error err => .error err
  | .ok oldPkAny =>
    let newResult : Except PackError (Option Any) :=
      if newConsPubKey ≠ none then
        match c.NewAnyWithValue newConsPubKey with
        | .error err => .error err
        | .ok packed => .ok (some packed)
      else .ok none
    match newResult with
    | .error err => .error err
    | .ok newPkAny =>
      .ok { OperatorAddress := c.ValAddressString valAddr,
            OldConsPubKey := oldPkAny,
            NewConsPubKey := newPkAny,
            Height := height }

/-- The method `ConsPubKeyRotationHistory.Equal` (lines 134-147): its body is
`return true`, every comparison is commented out. -/
def ConsPubKeyRotationHistory.Equal (_rh _hi2 : ConsPubKeyRotationHistory) : Bool :=
  true

/-- An example codec: a key is packed as its type name behind a slash and its
bytes, the nil key is refused, and an address is shown as a fixed text when it
is not empty. -/
def exCodec : Codec :=
  { NewAnyWithValue := fun v =>
      match v with
      | none => .error ⟨"nil value"⟩
      | some key => .ok ⟨"/" ++ key.typeName, key.key⟩,
    ValAddressString := fun a => if a = [] then "" else "cosmosvaloper" }

/-- An old consensus key. -/
def exOldKey : PubKey := ⟨"ed25519", [1, 1, 1]⟩

/-- A new consensus key, different from the old one. -/
def exNewKey : PubKey := ⟨"ed25519", [2, 2, 2]⟩

/-- A rotation record at height 10. -/
def exHistory : ConsPubKeyRotationHistory :=
  { OperatorAddress := "cosmosvaloper", OldConsPubKey := some ⟨"/ed25519", [1, 1, 1]⟩,
    NewConsPubKey := some ⟨"/ed25519", [2, 2, 2]⟩, Height := 10 }

end Staking

namespace IBC

/-! ## Theorems -/

/-- The store updates of `SendPacket` are the effect of the specification. -/
theorem sendEffect_eq (s : Store) (p : Packet) (n : Nat)
    (hn : s.nextSequenceSend (p.SourcePort, p.SourceChannel) = some n) :
    SetPacketCommitment (SetNextSequenceSend s p.SourcePort p.SourceChannel (uint64Inc n))
      p.SourcePort p.SourceChannel p.Sequence p.Data = sendEffect s p := by
  simp only [sendEffect, SetPacketCommitment, SetNextSequenceSend]
  congr 1
  · funext key
    by_cases hk : key = (p.SourcePort, p.SourceChannel)
    · subst hk
      simp [hn]
    · simp [hk, Function.update_noteq hk]
  · funext key
    by_cases hk : key = (p.SourcePort, p.SourceChannel, p.Sequence)
    · subst hk
      simp
    · simp [hk, Function.update_noteq hk]

/-- On a channel with a first connection hop, `SendPacket` is the reference
definition. -/
theorem SendPacket_eq_SendPacketSpec (k : Keeper) (ctx : Context) (p : Packet)
    (hhops : ∀ ch, GetChannel ctx p.SourcePort p.SourceChannel = some ch →
      ch.ConnectionHops ≠ []) :
    SendPacket k ctx p = SendPacketSpec ctx p := by
  unfold SendPacket SendPacketSpec
  simp only [GetChannel] at hhops
  simp only [sendPreconditions, List.findSome?, sendPre1, sendPre2, sendPre3, sendPre4, sendPre5,
    sendPre6, sendPre7, specConnection, specChannel, GetChannel, GetChannelCapability,
    GetConnection, GetConsensusState, GetNextSequenceSend]
  cases hch : ctx.store.channels (p.SourcePort, p.SourceChannel) with
  | none => simp
  | some ch =>
    have hne := hhops ch hch
    cases hh : ch.ConnectionHops with
    | nil => exact absurd hh hne
    | cons hop rest =>
      by_cases h1 : ch.State = ChannelState.CLOSED
      · simp [h1]
      cases h2 : ctx.store.capabilities (p.SourcePort, p.SourceChannel) with
      | none => simp [h1]
      | some cap =>
        by_cases h3 : p.DestPort = ch.Counterparty.PortID
        swap
        · simp [h1, h3]
        by_cases h3b : p.DestChannel = ch.Counterparty.ChannelID
        swap
        · simp [h1, h3, h3b]
        cases h4 : ctx.store.connections hop with
        | none => simp [h1, h3, h3b, hh, h4]
        | some conn =>
          by_cases h4b : conn.State = ConnectionState.NONE
          · simp [h1, h3, h3b, hh, h4, h4b]
          cases h5 : ctx.store.consensusStates conn.ClientID with
          | none => simp [h1, h3, h3b, hh, h4, h4b, h5]
          | some cs =>
            by_cases h5b : cs.Height < p.TimeoutHeight
            swap
            · simp [h1, h3, h3b, hh, h4, h4b, h5, h5b, Nat.le_of_not_lt h5b]
            cases h6 : ctx.store.nextSequenceSend (p.SourcePort, p.SourceChannel) with
            | none => simp [h1, h3, h3b, hh, h4, h4b, h5, h5b, Nat.not_le.mpr h5b]
            | some n =>
              by_cases h7 : p.Sequence = n
              swap
              · simp [h1, h3, h3b, hh, h4, h4b, h5, h5b, Nat.not_le.mpr h5b, h7]
              subst h7
              have he := sendEffect_eq ctx.store p p.Sequence h6
              simp [h1, h3, h3b, hh, h4, h4b, h5, h5b, Nat.not_le.mpr h5b, he]

/-- C1: on a channel with at least one connection hop, `SendPacket` equals the
reference definition of specification 4.1; it succeeds if and only if all
seven preconditions hold; and when a precondition fails while all the ones
before it hold, it returns that precondition's failure and the input store. -/
theorem C1_SendPacket_refines_spec (k : Keeper) (ctx : Context) (p : Packet)
    (hhops : ∀ ch, GetChannel ctx p.SourcePort p.SourceChannel = some ch →
      ch.ConnectionHops ≠ []) :
    SendPacket k ctx p = SendPacketSpec ctx p ∧
    ((SendPacket k ctx p).isOk = true ↔ ∀ c ∈ sendPreconditions, c ctx p = none) ∧
    (∀ (before after : List SendCheck) (c : SendCheck) (e : PacketError),
      sendPreconditions = before ++ c :: after → (∀ d ∈ before, d ctx p = none) →
      c ctx p = some e → SendPacket k ctx p = Outcome.error ctx.store e) := by
  have heq := SendPacket_eq_SendPacketSpec k ctx p hhops
  refine ⟨heq, ?_, ?_⟩
  · rw [heq]
    unfold SendPacketSpec
    cases hf : sendPreconditions.findSome? (fun c => c ctx p) with
    | none =>
      simp only [Outcome.isOk, true_iff]
      exact List.findSome?_eq_none_iff.mp hf
    | some e =>
      simp only [Outcome.isOk, Bool.false_eq_true, false_iff]
      intro hall
      rw [List.findSome?_eq_none_iff.mpr hall] at hf
      cases hf
  · intro before after c e hsplit hbefore hc
    rw [heq]
    unfold SendPacketSpec
    have hnone : before.findSome? (fun c => c ctx p) = none :=
      List.findSome?_eq_none_iff.mpr hbefore
    rw [hsplit, List.findSome?_append, hnone]
    simp [List.findSome?, hc]

/-- The hypothesis of C1 holds of a concrete store and packet, and the theorem
applies there. -/
theorem C1_SendPacket_refines_spec_witness :
    (∀ ch, GetChannel ⟨5, exSource Order.ORDERED 1⟩ (exPacket 1 [1, 2]).SourcePort
        (exPacket 1 [1, 2]).SourceChannel = some ch → ch.ConnectionHops ≠ []) ∧
    (SendPacket acceptAll ⟨5, exSource Order.ORDERED 1⟩ (exPacket 1 [1, 2]) =
        SendPacketSpec ⟨5, exSource Order.ORDERED 1⟩ (exPacket 1 [1, 2]) ∧
      ((SendPacket acceptAll ⟨5, exSource Order.ORDERED 1⟩ (exPacket 1 [1, 2])).isOk = true ↔
        ∀ c ∈ sendPreconditions, c ⟨5, exSource Order.ORDERED 1⟩ (exPacket 1 [1, 2]) = none) ∧
      (∀ (before after : List SendCheck) (c : SendCheck) (e : PacketError),
        sendPreconditions = before ++ c :: after →
        (∀ d ∈ before, d ⟨5, exSource Order.ORDERED 1⟩ (exPacket 1 [1, 2]) = none) →
        c ⟨5, exSource Order.ORDERED 1⟩ (exPacket 1 [1, 2]) = some e →
        SendPacket acceptAll ⟨5, exSource Order.ORDERED 1⟩ (exPacket 1 [1, 2]) =
          Outcome.error (exSource Order.ORDERED 1) e)) :=
  have h : ∀ ch, GetChannel ⟨5, exSource Order.ORDERED 1⟩ (exPacket 1 [1, 2]).SourcePort
      (exPacket 1 [1, 2]).SourceChannel = some ch → ch.ConnectionHops ≠ [] := by
    intro ch hch
    simp only [GetChannel, exSource, exPacket, if_true, Option.some.injEq] at hch
    subst hch
    simp [exChannel]
  ⟨h, C1_SendPacket_refines_spec acceptAll ⟨5, exSource Order.ORDERED 1⟩ (exPacket 1 [1, 2]) h⟩


/-! ### What each operation passes through -/

/-- What a successful `SendPacket` passed through, and the store it wrote. -/
theorem SendPacket_ok_inv {k : Keeper} {ctx : Context} {p : Packet} {s' : Store} {v : Unit}
    (h : SendPacket k ctx p = Outcome.ok s' v) :
    ∃ ch cap hop rest conn cs,
      ctx.store.channels (p.SourcePort, p.SourceChannel) = some ch ∧
      ch.State ≠ ChannelState.CLOSED ∧
      ctx.store.capabilities (p.SourcePort, p.SourceChannel) = some cap ∧
      p.DestPort = ch.Counterparty.PortID ∧
      p.DestChannel = ch.Counterparty.ChannelID ∧
      ch.ConnectionHops = hop :: rest ∧
      ctx.store.connections hop = some conn ∧
      conn.State ≠ ConnectionState.NONE ∧
      ctx.store.consensusStates conn.ClientID = some cs ∧
      cs.Height < p.TimeoutHeight ∧
      ctx.store.nextSequenceSend (p.SourcePort, p.SourceChannel) = some p.Sequence ∧
      s' = SetPacketCommitment
            (SetNextSequenceSend ctx.store p.SourcePort p.SourceChannel (uint64Inc p.Sequence))
            p.SourcePort p.SourceChannel p.Sequence p.Data := by
  unfold SendPacket at h
  simp only [GetChannel, GetChannelCapability, GetConnection, GetConsensusState,
    GetNextSequenceSend] at h
  repeat' split at h
  all_goals cases h
  simp only [ne_eq, not_not, ge_iff_le, not_le] at *
  subst_vars
  exact ⟨_, _, _, _, _, _, ‹_›, ‹_›, ‹_›, ‹_›, ‹_›, ‹_›, ‹_›, ‹_›, ‹_›, ‹_›, ‹_›, rfl⟩

/-- An error of `SendPacket` comes with the input store. -/
theorem SendPacket_error_store {k : Keeper} {ctx : Context} {p : Packet} {s' : Store}
    {e : PacketError} (h : SendPacket k ctx p = Outcome.error s' e) : s' = ctx.store := by
  unfold SendPacket at h
  repeat' split at h
  all_goals cases h
  all_goals rfl

/-- What a successful `CleanupPacket` passed through, and the store it wrote. -/
theorem CleanupPacket_ok_inv {k : Keeper} {ctx : Context} {p : Packet} {proof : Proof}
    {proofHeight nextSequenceRecv : Nat} {ack : Bytes} {s' : Store} {v : Packet}
    (h : CleanupPacket k ctx p proof proofHeight nextSequenceRecv ack = Outcome.ok s' v) :
    ∃ ch conn claim,
      CleanupReaches ctx p nextSequenceRecv ch conn ∧
      GetPacketCommitment ctx p.SourcePort p.SourceChannel p.Sequence = p.Data ∧
      cleanupClaim ch.Ordering p nextSequenceRecv ack = some claim ∧
      k.VerifyMembership conn proofHeight proof claim.1 claim.2 = true ∧
      v = p ∧
      s' = deletePacketCommitment ctx.store p.SourcePort p.SourceChannel p.Sequence := by
  unfold CleanupPacket at h
  simp only [GetChannel, GetChannelCapability, GetConnection] at h
  repeat' split at h
  all_goals cases h
  all_goals simp only [ne_eq, not_not, ge_iff_le, not_le, Bool.not_eq_true] at *
  all_goals
    rename_i _ ch hch _ cap hcap _ hop rest hhops _ conn hconn _ hord hst hdc hdp hseq hcm hv
    refine ⟨ch, conn, _, ⟨hch, hst, by simp [hcap], hdc, by simp [hhops, hconn], hdp, ?_⟩,
      hcm, by simp only [cleanupClaim, hord]; rfl, ?_, trivial, trivial⟩
    · omega
    · simpa using hv

/-- An error of `CleanupPacket` comes with the input store. -/
theorem CleanupPacket_error_store {k : Keeper} {ctx : Context} {p : Packet} {proof : Proof}
    {proofHeight nextSequenceRecv : Nat} {ack : Bytes} {s' : Store} {e : PacketError}
    (h : CleanupPacket k ctx p proof proofHeight nextSequenceRecv ack = Outcome.error s' e) :
    s' = ctx.store := by
  unfold CleanupPacket at h
  repeat' split at h
  all_goals cases h
  all_goals rfl

/-- Past its first checks, `CleanupPacket` compares the commitment, hands the
claim of the channel ordering to the verifier, and deletes the commitment when
the verifier accepts. -/
theorem CleanupPacket_of_reaches {k : Keeper} {ctx : Context} {p : Packet} {proof : Proof}
    {proofHeight nextSequenceRecv : Nat} {ack : Bytes} {ch : Channel} {conn : ConnectionEnd}
    (hr : CleanupReaches ctx p nextSequenceRecv ch conn) :
    CleanupPacket k ctx p proof proofHeight nextSequenceRecv ack =
      if GetPacketCommitment ctx p.SourcePort p.SourceChannel p.Sequence ≠ p.Data then
        Outcome.error ctx.store PacketError.packetHasntBeenSent
      else match cleanupClaim ch.Ordering p nextSequenceRecv ack with
        | none => Outcome.fault Fault.invalidChannelOrderingType
        | some claim =>
          if k.VerifyMembership conn proofHeight proof claim.1 claim.2 = true then
            Outcome.ok (deletePacketCommitment ctx.store p.SourcePort p.SourceChannel p.Sequence) p
          else Outcome.error ctx.store PacketError.failedPacketVerification := by
  obtain ⟨hch, hst, hcap, hdc, hhop, hdp, hseq⟩ := hr
  obtain ⟨cap, hcap⟩ := Option.isSome_iff_exists.mp hcap
  cases hh : ch.ConnectionHops with
  | nil => simp [hh] at hhop
  | cons hop rest =>
    simp only [hh, List.head?, Option.bind] at hhop
    unfold CleanupPacket
    simp only [GetChannel, GetChannelCapability, GetConnection, hch, hst, hcap, ← hdc, hh, hhop,
      ← hdp, hseq, ne_eq, not_true_eq_false, if_false]
    by_cases hcm : GetPacketCommitment ctx p.SourcePort p.SourceChannel p.Sequence = p.Data
    · cases ho : ch.Ordering <;>
        by_cases hv1 : k.VerifyMembership conn proofHeight proof
          (Path.NextSequenceRecvPath p.DestPort p.DestChannel)
          (Uint64ToBigEndian nextSequenceRecv) = true <;>
        by_cases hv2 : k.VerifyMembership conn proofHeight proof
          (Path.PacketAcknowledgementPath p.SourcePort p.SourceChannel p.Sequence) ack = true <;>
        simp [hcm, cleanupClaim, hv1, hv2]
    · simp [hcm]

/-- Past preconditions 1 to 6, `RecvPacket` writes the acknowledgement and, on
an ORDERED channel, checks and advances the receive counter. -/
theorem RecvPacket_of_pre {k : Keeper} {ctx : Context} {p : Packet} {proof : Proof}
    {proofHeight : Nat} {ch : Channel} {conn : ConnectionEnd} (ack : Bytes)
    (hpre : RecvPreconditions k ctx p proof proofHeight ch conn) :
    RecvPacket k ctx p proof proofHeight ack =
      if ch.Ordering = Order.ORDERED then
        match ctx.store.nextSequenceRecv (p.DestPort, p.DestChannel) with
        | none =>
          Outcome.error (recvAckStore ctx.store ch p ack) PacketError.nextSeqReceiveCounterNotFound
        | some n =>
          if p.Sequence ≠ n then
            Outcome.error (recvAckStore ctx.store ch p ack) PacketError.invalidPacketSequence
          else
            Outcome.ok (SetNextSequenceRecv (recvAckStore ctx.store ch p ack)
              p.DestPort p.DestChannel (uint64Inc n)) p
      else Outcome.ok (recvAckStore ctx.store ch p ack) p := by
  obtain ⟨hch, hst, hcap, hsp, hsc, hhop, hco, hexp, hv⟩ := hpre
  obtain ⟨cap, hcap⟩ := Option.isSome_iff_exists.mp hcap
  cases hh : ch.ConnectionHops with
  | nil => simp [hh] at hhop
  | cons hop rest =>
    simp only [hh, List.head?, Option.bind] at hhop
    have hnr : (recvAckStore ctx.store ch p ack).nextSequenceRecv = ctx.store.nextSequenceRecv := by
      unfold recvAckStore SetPacketAcknowledgement
      split <;> rfl
    unfold RecvPacket
    simp only [GetChannel, GetChannelCapability, GetConnection, GetNextSequenceRecv, hch, hst,
      hcap, ← hsp, ← hsc, hh, hhop, hco, Nat.not_le.mpr hexp, hv, ne_eq, not_true_eq_false,
      if_false, ge_iff_le]
    change (if ch.Ordering = Order.ORDERED then
        match (recvAckStore ctx.store ch p ack).nextSequenceRecv (p.DestPort, p.DestChannel) with
        | none =>
          Outcome.error (recvAckStore ctx.store ch p ack) PacketError.nextSeqReceiveCounterNotFound
        | some n =>
          if ¬ p.Sequence = n then
            Outcome.error (recvAckStore ctx.store ch p ack) PacketError.invalidPacketSequence
          else
            Outcome.ok (SetNextSequenceRecv (recvAckStore ctx.store ch p ack)
              p.DestPort p.DestChannel (uint64Inc n)) p
      else Outcome.ok (recvAckStore ctx.store ch p ack) p) = _
    rw [hnr]

/-- A call of `RecvPacket` either passes preconditions 1 to 6, or returns an
error on the input store, or faults. -/
theorem RecvPacket_cases (k : Keeper) (ctx : Context) (p : Packet) (proof : Proof)
    (proofHeight : Nat) (ack : Bytes) :
    (∃ ch conn, RecvPreconditions k ctx p proof proofHeight ch conn) ∨
    (∃ e, RecvPacket k ctx p proof proofHeight ack = Outcome.error ctx.store e) ∨
    (∃ f, RecvPacket k ctx p proof proofHeight ack = Outcome.fault f) := by
  unfold RecvPacket
  simp only [GetChannel, GetChannelCapability, GetConnection]
  cases hch : ctx.store.channels (p.SourcePort, p.SourceChannel) with
  | none => exact Or.inr (Or.inl ⟨_, rfl⟩)
  | some ch =>
    simp only []
    by_cases hst : ch.State = ChannelState.OPEN
    swap
    · rw [if_pos hst]; exact Or.inr (Or.inl ⟨_, rfl⟩)
    rw [if_neg (not_not.mpr hst)]
    cases hcap : ctx.store.capabilities (p.SourcePort, p.SourceChannel) with
    | none => exact Or.inr (Or.inl ⟨_, rfl⟩)
    | some cap =>
      simp only []
      by_cases hsp : p.SourcePort = ch.Counterparty.PortID
      swap
      · rw [if_pos hsp]; exact Or.inr (Or.inl ⟨_, rfl⟩)
      rw [if_neg (not_not.mpr hsp)]
      by_cases hsc : p.SourceChannel = ch.Counterparty.ChannelID
      swap
      · rw [if_pos hsc]; exact Or.inr (Or.inl ⟨_, rfl⟩)
      rw [if_neg (not_not.mpr hsc)]
      cases hh : ch.ConnectionHops with
      | nil => exact Or.inr (Or.inr ⟨_, rfl⟩)
      | cons hop rest =>
        simp only []
        cases hconn : ctx.store.connections hop with
        | none => exact Or.inr (Or.inl ⟨_, rfl⟩)
        | some conn =>
          simp only []
          by_cases hco : conn.State = ConnectionState.OPEN
          swap
          · rw [if_pos hco]; exact Or.inr (Or.inl ⟨_, rfl⟩)
          rw [if_neg (not_not.mpr hco)]
          by_cases hexp : uint64OfInt64 ctx.BlockHeight < p.TimeoutHeight
          swap
          · rw [if_pos (Nat.le_of_not_lt hexp)]; exact Or.inr (Or.inl ⟨_, rfl⟩)
          by_cases hv : k.VerifyMembership conn proofHeight proof
              (Path.ChannelPath p.SourcePort p.SourceChannel) p.Data = true
          swap
          · rw [if_neg (Nat.not_le.mpr hexp), if_pos hv]; exact Or.inr (Or.inl ⟨_, rfl⟩)
          exact Or.inl ⟨ch, conn, ⟨hch, hst, by simp [hcap], hsp, hsc, by simp [hh, hconn], hco,
            hexp, hv⟩⟩

/-- What a successful `RecvPacket` passed through. -/
theorem RecvPacket_ok_inv {k : Keeper} {ctx : Context} {p : Packet} {proof : Proof}
    {proofHeight : Nat} {ack : Bytes} {s' : Store} {v : Packet}
    (h : RecvPacket k ctx p proof proofHeight ack = Outcome.ok s' v) :
    ∃ ch conn, RecvPreconditions k ctx p proof proofHeight ch conn := by
  rcases RecvPacket_cases k ctx p proof proofHeight ack with hpre | ⟨e, he⟩ | ⟨f, hf⟩
  · exact hpre
  · rw [he] at h; cases h
  · rw [hf] at h; cases h

/-- An error of `RecvPacket` comes with the input store, except for the two
errors of the ORDERED-channel block, which come with the store the
acknowledgement step left. -/
theorem RecvPacket_error_store {k : Keeper} {ctx : Context} {p : Packet} {proof : Proof}
    {proofHeight : Nat} {ack : Bytes} {s' : Store} {e : PacketError}
    (h : RecvPacket k ctx p proof proofHeight ack = Outcome.error s' e) :
    s' = ctx.store ∨
    ∃ ch, ctx.store.channels (p.SourcePort, p.SourceChannel) = some ch ∧
      ch.Ordering = Order.ORDERED ∧ s' = recvAckStore ctx.store ch p ack ∧
      (e = PacketError.nextSeqReceiveCounterNotFound ∨ e = PacketError.invalidPacketSequence) := by
  rcases RecvPacket_cases k ctx p proof proofHeight ack with ⟨ch, conn, hpre⟩ | ⟨e2, he⟩ | ⟨f, hf⟩
  · rw [RecvPacket_of_pre ack hpre] at h
    by_cases hord : ch.Ordering = Order.ORDERED
    · rw [if_pos hord] at h
      refine Or.inr ⟨ch, hpre.channel_exists, hord, ?_⟩
      cases hn : ctx.store.nextSequenceRecv (p.DestPort, p.DestChannel) with
      | none =>
        rw [hn] at h
        cases h
        exact ⟨rfl, Or.inl rfl⟩
      | some n =>
        rw [hn] at h
        simp only [] at h
        by_cases hseq : p.Sequence = n
        · rw [if_neg (not_not.mpr hseq)] at h; cases h
        · rw [if_pos hseq] at h
          cases h
          exact ⟨rfl, Or.inr rfl⟩
    · rw [if_neg hord] at h; cases h
  · rw [he] at h; cases h; exact Or.inl rfl
  · rw [hf] at h; cases h

/-- C2: a successful `SendPacket` changes the store in exactly two places.
The send counter of (sourcePort, sourceChannel), which held the packet
sequence, holds the sequence plus 1 modulo 2^64, and the commitment of
(sourcePort, sourceChannel, sequence) holds the packet data; every other
counter and commitment and every other part of the store is as before. -/
theorem C2_SendPacket_effect (k : Keeper) (ctx : Context) (p : Packet) (s' : Store) (v : Unit)
    (h : SendPacket k ctx p = Outcome.ok s' v) :
    ctx.store.nextSequenceSend (p.SourcePort, p.SourceChannel) = some p.Sequence ∧
    s'.nextSequenceSend (p.SourcePort, p.SourceChannel) = some ((p.Sequence + 1) % 2 ^ 64) ∧
    s'.packetCommitments (p.SourcePort, p.SourceChannel, p.Sequence) = some p.Data ∧
    (∀ key, key ≠ (p.SourcePort, p.SourceChannel) →
      s'.nextSequenceSend key = ctx.store.nextSequenceSend key) ∧
    (∀ key, key ≠ (p.SourcePort, p.SourceChannel, p.Sequence) →
      s'.packetCommitments key = ctx.store.packetCommitments key) ∧
    s'.channels = ctx.store.channels ∧
    s'.capabilities = ctx.store.capabilities ∧
    s'.connections = ctx.store.connections ∧
    s'.consensusStates = ctx.store.consensusStates ∧
    s'.nextSequenceRecv = ctx.store.nextSequenceRecv ∧
    s'.packetAcknowledgements = ctx.store.packetAcknowledgements := by
  obtain ⟨ch, cap, hop, rest, conn, cs, -, -, -, -, -, -, -, -, -, -, hn, hs⟩ := SendPacket_ok_inv h
  subst hs
  refine ⟨hn, ?_, ?_, ?_, ?_, rfl, rfl, rfl, rfl, rfl, rfl⟩
  · simp [SetPacketCommitment, SetNextSequenceSend, uint64Inc]
  · simp [SetPacketCommitment]
  · intro key hkey
    simp [SetPacketCommitment, SetNextSequenceSend, Function.update_noteq hkey]
  · intro key hkey
    simp [SetPacketCommitment, SetNextSequenceSend, Function.update_noteq hkey]

/-- The hypothesis of C2 holds of a concrete send, and the theorem applies
there: the counter goes from 1 to 2 and the commitment of sequence 1 holds
the data. -/
theorem C2_SendPacket_effect_witness :
    SendPacket acceptAll ⟨5, exSource Order.ORDERED 1⟩ (exPacket 1 [1, 2]) =
      Outcome.ok (SetPacketCommitment
        (SetNextSequenceSend (exSource Order.ORDERED 1) "transfer" "chan-a" 2)
        "transfer" "chan-a" 1 [1, 2]) () ∧
    (SetPacketCommitment (SetNextSequenceSend (exSource Order.ORDERED 1) "transfer" "chan-a" 2)
      "transfer" "chan-a" 1 [1, 2]).nextSequenceSend ("transfer", "chan-a") = some 2 ∧
    (SetPacketCommitment (SetNextSequenceSend (exSource Order.ORDERED 1) "transfer" "chan-a" 2)
      "transfer" "chan-a" 1 [1, 2]).packetCommitments ("transfer", "chan-a", 1) = some [1, 2] :=
  have h : SendPacket acceptAll ⟨5, exSource Order.ORDERED 1⟩ (exPacket 1 [1, 2]) =
      Outcome.ok (SetPacketCommitment
        (SetNextSequenceSend (exSource Order.ORDERED 1) "transfer" "chan-a" 2)
        "transfer" "chan-a" 1 [1, 2]) () := by rfl
  have hc := C2_SendPacket_effect acceptAll ⟨5, exSource Order.ORDERED 1⟩ (exPacket 1 [1, 2]) _ _ h
  ⟨h, hc.2.1, hc.2.2.1⟩

/-- C3: on an ORDERED channel, when preconditions 1 to 6 of specification 4.2
hold and the receive counter of (destPort, destChannel) holds `n`,
`RecvPacket` accepts the packet if and only if its sequence is `n`; on
acceptance it returns the packet and the counter holds `n + 1` as a 64-bit
value (`n + 1` itself whenever that fits in 64 bits); and `RecvPacket` with
the same packet on the resulting store fails with the sequence error, and is
rejected whatever the height, proof and acknowledgement are. -/
theorem C3_RecvPacket_ordered (k : Keeper) (ctx : Context) (p : Packet) (proof : Proof)
    (proofHeight : Nat) (ack : Bytes) (ch : Channel) (conn : ConnectionEnd) (n : Nat)
    (hpre : RecvPreconditions k ctx p proof proofHeight ch conn)
    (hord : ch.Ordering = Order.ORDERED)
    (hn : ctx.store.nextSequenceRecv (p.DestPort, p.DestChannel) = some n) :
    ((RecvPacket k ctx p proof proofHeight ack).isOk = true ↔ p.Sequence = n) ∧
    (∀ s' v, RecvPacket k ctx p proof proofHeight ack = Outcome.ok s' v →
      v = p ∧
      s'.nextSequenceRecv (p.DestPort, p.DestChannel) = some ((n + 1) % 2 ^ 64) ∧
      (n + 1 < 2 ^ 64 → s'.nextSequenceRecv (p.DestPort, p.DestChannel) = some (n + 1)) ∧
      (RecvPacket k ⟨ctx.BlockHeight, s'⟩ p proof proofHeight ack).err? =
        some PacketError.invalidPacketSequence ∧
      (∀ height proof2 proofHeight2 ack2,
        (RecvPacket k ⟨height, s'⟩ p proof2 proofHeight2 ack2).isOk = false)) := by
  have hrun := RecvPacket_of_pre ack hpre
  rw [if_pos hord, hn] at hrun
  simp only [] at hrun
  constructor
  · rw [hrun]
    by_cases hseq : p.Sequence = n
    · simp [hseq, Outcome.isOk]
    · simp [hseq, Outcome.isOk]
  · intro s' v hok
    rw [hrun] at hok
    by_cases hseq : p.Sequence = n
    swap
    · rw [if_pos hseq] at hok; cases hok
    rw [if_neg (not_not.mpr hseq)] at hok
    cases hok
    have hcnt : (SetNextSequenceRecv (recvAckStore ctx.store ch p ack) p.DestPort p.DestChannel
        (uint64Inc n)).nextSequenceRecv (p.DestPort, p.DestChannel) = some ((n + 1) % 2 ^ 64) := by
      simp [SetNextSequenceRecv, uint64Inc]
    have hchan : (SetNextSequenceRecv (recvAckStore ctx.store ch p ack) p.DestPort p.DestChannel
        (uint64Inc n)).channels = ctx.store.channels := by
      unfold SetNextSequenceRecv recvAckStore SetPacketAcknowledgement
      split <;> rfl
    have hne : p.Sequence ≠ (n + 1) % 2 ^ 64 := by
      have h64 : (2 : Nat) ^ 64 = 18446744073709551616 := by norm_num
      rw [hseq, h64]
      omega
    have hrej : ∀ height proof2 proofHeight2 ack2,
        ∀ s2 v2, RecvPacket k ⟨height, SetNextSequenceRecv (recvAckStore ctx.store ch p ack)
          p.DestPort p.DestChannel (uint64Inc n)⟩ p proof2 proofHeight2 ack2 ≠
            Outcome.ok s2 v2 := by
      intro height proof2 proofHeight2 ack2 s2 v2 hok2
      obtain ⟨ch2, conn2, hpre2⟩ := RecvPacket_ok_inv hok2
      have hch2 : ch2 = ch := by
        have h1 := hpre2.channel_exists
        simp only [hchan] at h1
        rw [hpre.channel_exists] at h1
        exact (Option.some.inj h1).symm
      subst hch2
      have hrun2 := RecvPacket_of_pre ack2 hpre2
      rw [if_pos hord] at hrun2
      have hcnt2 : (SetNextSequenceRecv (recvAckStore ctx.store ch2 p ack) p.DestPort
          p.DestChannel (uint64Inc n)).nextSequenceRecv (p.DestPort, p.DestChannel) =
          some ((n + 1) % 2 ^ 64) := hcnt
      simp only [hcnt2] at hrun2
      rw [if_pos hne] at hrun2
      rw [hrun2] at hok2
      cases hok2
    refine ⟨rfl, hcnt, ?_, ?_, ?_⟩
    · intro hlt
      rw [hcnt, Nat.mod_eq_of_lt hlt]
    · have hpre2 : RecvPreconditions k ⟨ctx.BlockHeight, SetNextSequenceRecv
          (recvAckStore ctx.store ch p ack) p.DestPort p.DestChannel (uint64Inc n)⟩ p proof
          proofHeight ch conn := by
        obtain ⟨h1, h2, h3, h4, h5, h6, h7, h8, h9⟩ := hpre
        refine ⟨?_, h2, ?_, h4, h5, ?_, h7, h8, h9⟩
        · rw [hchan]; exact h1
        · have : (SetNextSequenceRecv (recvAckStore ctx.store ch p ack) p.DestPort p.DestChannel
              (uint64Inc n)).capabilities = ctx.store.capabilities := by
            unfold SetNextSequenceRecv recvAckStore SetPacketAcknowledgement
            split <;> rfl
          simp only [this]; exact h3
        · have : (SetNextSequenceRecv (recvAckStore ctx.store ch p ack) p.DestPort p.DestChannel
              (uint64Inc n)).connections = ctx.store.connections := by
            unfold SetNextSequenceRecv recvAckStore SetPacketAcknowledgement
            split <;> rfl
          simp only [this]; exact h6
      have hrun2 := RecvPacket_of_pre ack hpre2
      rw [if_pos hord] at hrun2
      simp only [hcnt] at hrun2
      rw [if_pos hne] at hrun2
      rw [hrun2]
      rfl
    · intro height proof2 proofHeight2 ack2
      cases hr : RecvPacket k ⟨height, SetNextSequenceRecv (recvAckStore ctx.store ch p ack)
          p.DestPort p.DestChannel (uint64Inc n)⟩ p proof2 proofHeight2 ack2 with
      | ok s2 v2 => exact absurd hr (hrej height proof2 proofHeight2 ack2 s2 v2)
      | error s2 e => rfl
      | fault f => rfl

/-- The hypotheses of C3 hold of a concrete ordered receive, and the theorem
applies there. -/
theorem C3_RecvPacket_ordered_witness :
    RecvPreconditions acceptAll ⟨5, exDest Order.ORDERED (some 1)⟩ (exPacket 1 [1, 2]) [] 7
      (exDestChannel Order.ORDERED) exDestConnection ∧
    (exDestChannel Order.ORDERED).Ordering = Order.ORDERED ∧
    (exDest Order.ORDERED (some 1)).nextSequenceRecv ("bank", "chan-b") = some 1 ∧
    ((RecvPacket acceptAll ⟨5, exDest Order.ORDERED (some 1)⟩ (exPacket 1 [1, 2]) [] 7 [9]).isOk
      = true ↔ (exPacket 1 [1, 2]).Sequence = 1) :=
  have hpre : RecvPreconditions acceptAll ⟨5, exDest Order.ORDERED (some 1)⟩ (exPacket 1 [1, 2])
      [] 7 (exDestChannel Order.ORDERED) exDestConnection :=
    ⟨rfl, rfl, rfl, rfl, rfl, rfl, rfl, by decide, rfl⟩
  ⟨hpre, rfl, rfl,
    (C3_RecvPacket_ordered acceptAll ⟨5, exDest Order.ORDERED (some 1)⟩ (exPacket 1 [1, 2]) [] 7
      [9] (exDestChannel Order.ORDERED) exDestConnection 1 hpre rfl rfl).1⟩

/-- C4: `RecvPacket` is not atomic on failure.  On an ORDERED channel whose
receive counter is absent, and on one whose counter differs from the packet
sequence, a call with a non-empty acknowledgement returns an error and leaves
the acknowledgement written in the store, which had none. -/
theorem C4_RecvPacket_error_keeps_acknowledgement :
    (∃ s', RecvPacket acceptAll ⟨5, exDest Order.ORDERED none⟩ (exPacket 1 [1, 2]) [] 7 [9] =
        Outcome.error s' PacketError.nextSeqReceiveCounterNotFound ∧
      (exDest Order.ORDERED none).packetAcknowledgements ("bank", "chan-b", 1) = none ∧
      s'.packetAcknowledgements ("bank", "chan-b", 1) = some [9] ∧
      s' ≠ exDest Order.ORDERED none) ∧
    (∃ s', RecvPacket acceptAll ⟨5, exDest Order.ORDERED (some 5)⟩ (exPacket 1 [1, 2]) [] 7 [9] =
        Outcome.error s' PacketError.invalidPacketSequence ∧
      (exDest Order.ORDERED (some 5)).packetAcknowledgements ("bank", "chan-b", 1) = none ∧
      s'.packetAcknowledgements ("bank", "chan-b", 1) = some [9] ∧
      s' ≠ exDest Order.ORDERED (some 5)) := by
  refine ⟨⟨_, rfl, rfl, rfl, ?_⟩, ⟨_, rfl, rfl, rfl, ?_⟩⟩
  · intro hs
    have := congrArg (fun s => s.packetAcknowledgements ("bank", "chan-b", 1)) hs
    revert this
    decide
  · intro hs
    have := congrArg (fun s => s.packetAcknowledgements ("bank", "chan-b", 1)) hs
    revert this
    decide

/-- C5: the sequence check of `CleanupPacket` is the reverse of the one
claimed.  With a commitment stored for sequence 2 and every other check
passing, `nextSequenceRecv = 3` (strictly greater than the sequence) fails
with the "packet already received" error, a sequence violation, while
`nextSequenceRecv = 1` (not greater than the sequence) succeeds. -/
theorem C5_CleanupPacket_sequence_check_reversed :
    CleanupPacket acceptAll ⟨5, exSourceCommitted Order.ORDERED 3 2 [1, 2]⟩ (exPacket 2 [1, 2])
        [] 7 3 [] =
      Outcome.error (exSourceCommitted Order.ORDERED 3 2 [1, 2])
        PacketError.packetAlreadyReceived ∧
    PacketError.packetAlreadyReceived.kind = ErrorKind.SequenceViolation ∧
    (CleanupPacket acceptAll ⟨5, exSourceCommitted Order.ORDERED 3 2 [1, 2]⟩ (exPacket 2 [1, 2])
        [] 7 1 []).isOk = true :=
  ⟨rfl, rfl, rfl⟩

/-- C6: `CleanupPacket` succeeds without a commitment when the packet data is
empty.  The store holds no commitment for ("transfer", "chan-a", 2), the
packet of sequence 2 has empty data, and the call returns the packet. -/
theorem C6_CleanupPacket_succeeds_without_commitment :
    (exSource Order.ORDERED 3).packetCommitments ("transfer", "chan-a", 2) = none ∧
    (exPacket 2 []).Data = [] ∧
    CleanupPacket acceptAll ⟨5, exSource Order.ORDERED 3⟩ (exPacket 2 []) [] 7 1 [] =
      Outcome.ok (deletePacketCommitment (exSource Order.ORDERED 3) "transfer" "chan-a" 2)
        (exPacket 2 []) :=
  ⟨rfl, rfl, rfl⟩

/-- C7: a successful `CleanupPacket` returns the packet and removes the
commitment of (sourcePort, sourceChannel, sequence); every other commitment
and every other part of the store is as before. -/
theorem C7_CleanupPacket_effect (k : Keeper) (ctx : Context) (p : Packet) (proof : Proof)
    (proofHeight nextSequenceRecv : Nat) (ack : Bytes) (s' : Store) (v : Packet)
    (h : CleanupPacket k ctx p proof proofHeight nextSequenceRecv ack = Outcome.ok s' v) :
    v = p ∧
    s'.packetCommitments (p.SourcePort, p.SourceChannel, p.Sequence) = none ∧
    (∀ key, key ≠ (p.SourcePort, p.SourceChannel, p.Sequence) →
      s'.packetCommitments key = ctx.store.packetCommitments key) ∧
    s'.channels = ctx.store.channels ∧
    s'.capabilities = ctx.store.capabilities ∧
    s'.connections = ctx.store.connections ∧
    s'.consensusStates = ctx.store.consensusStates ∧
    s'.nextSequenceSend = ctx.store.nextSequenceSend ∧
    s'.nextSequenceRecv = ctx.store.nextSequenceRecv ∧
    s'.packetAcknowledgements = ctx.store.packetAcknowledgements := by
  obtain ⟨ch, conn, claim, -, -, -, -, hv, hs⟩ := CleanupPacket_ok_inv h
  subst hs
  refine ⟨hv, ?_, ?_, rfl, rfl, rfl, rfl, rfl, rfl, rfl⟩
  · simp [deletePacketCommitment]
  · intro key hkey
    simp [deletePacketCommitment, Function.update_noteq hkey]

/-- The hypothesis of C7 holds of a concrete cleanup, and the theorem applies
there: the commitment of sequence 2 is gone and the one of sequence 1 stays. -/
theorem C7_CleanupPacket_effect_witness :
    CleanupPacket acceptAll
        ⟨5, SetPacketCommitment (exSourceCommitted Order.ORDERED 3 2 [1, 2])
          "transfer" "chan-a" 1 [7]⟩
        (exPacket 2 [1, 2]) [] 7 1 [] =
      Outcome.ok (deletePacketCommitment
        (SetPacketCommitment (exSourceCommitted Order.ORDERED 3 2 [1, 2]) "transfer" "chan-a" 1 [7])
        "transfer" "chan-a" 2) (exPacket 2 [1, 2]) ∧
    (deletePacketCommitment
        (SetPacketCommitment (exSourceCommitted Order.ORDERED 3 2 [1, 2]) "transfer" "chan-a" 1 [7])
        "transfer" "chan-a" 2).packetCommitments ("transfer", "chan-a", 2) = none ∧
    (deletePacketCommitment
        (SetPacketCommitment (exSourceCommitted Order.ORDERED 3 2 [1, 2]) "transfer" "chan-a" 1 [7])
        "transfer" "chan-a" 2).packetCommitments ("transfer", "chan-a", 1) = some [7] :=
  have h : CleanupPacket acceptAll
        ⟨5, SetPacketCommitment (exSourceCommitted Order.ORDERED 3 2 [1, 2])
          "transfer" "chan-a" 1 [7]⟩
        (exPacket 2 [1, 2]) [] 7 1 [] =
      Outcome.ok (deletePacketCommitment
        (SetPacketCommitment (exSourceCommitted Order.ORDERED 3 2 [1, 2]) "transfer" "chan-a" 1 [7])
        "transfer" "chan-a" 2) (exPacket 2 [1, 2]) := by rfl
  have hc := C7_CleanupPacket_effect acceptAll _ (exPacket 2 [1, 2]) [] 7 1 [] _ _ h
  ⟨h, hc.2.1, (hc.2.2.1 ("transfer", "chan-a", 1) (by decide)).trans rfl⟩

/-- Under preconditions 1 to 6 of specification 4.3 as worded there,
`CleanupPacket` fails at its sequence check, whatever the verifier answers. -/
theorem CleanupPacket_under_spec_preconditions {k : Keeper} {ctx : Context} {p : Packet}
    {proof : Proof} {proofHeight nextSequenceRecv : Nat} {ack : Bytes} {ch : Channel}
    {conn : ConnectionEnd} (hpre : CleanupPreconditions ctx p nextSequenceRecv ch conn) :
    CleanupPacket k ctx p proof proofHeight nextSequenceRecv ack =
      Outcome.error ctx.store PacketError.packetAlreadyReceived := by
  obtain ⟨hch, hst, hcap, hdc, hdp, hhop, hseq, -⟩ := hpre
  obtain ⟨cap, hcap⟩ := Option.isSome_iff_exists.mp hcap
  cases hh : ch.ConnectionHops with
  | nil => simp [hh] at hhop
  | cons hop rest =>
    simp only [hh, List.head?, Option.bind] at hhop
    unfold CleanupPacket
    simp only [GetChannel, GetChannelCapability, GetConnection, hch, hst, hcap, ← hdc, hh, hhop,
      ← hdp, ne_eq, not_true_eq_false, if_false]
    rw [if_pos (Nat.le_of_lt hseq)]

/-- The encoding `Uint64ToBigEndian` has 8 bytes and reads back, most
significant byte first, as the value modulo 2^64. -/
theorem Uint64ToBigEndian_spec (n : Nat) :
    (Uint64ToBigEndian n).length = 8 ∧
    (Uint64ToBigEndian n).foldl (fun acc b => acc * 256 + b.val) 0 = n % 2 ^ 64 := by
  refine ⟨rfl, ?_⟩
  simp only [Uint64ToBigEndian, byteAt, List.foldl]
  norm_num
  omega

/-- C8: under preconditions 1 to 6 of specification 4.3 the outcome of
`CleanupPacket` does not follow the verifier.  On an ORDERED and on an
UNORDERED channel, with the six preconditions holding (`nextSequenceRecv = 3`
is strictly greater than the sequence 2, and the commitment equals the data)
and the verifier accepting the claim of the branch, the call fails with the
"packet already received" error; with a verifier that rejects, the error is
the same one, a sequence violation and not a proof failure. -/
theorem C8_CleanupPacket_fails_though_verifier_accepts :
    (CleanupPreconditions ⟨5, exSourceCommitted Order.ORDERED 3 2 [1, 2]⟩ (exPacket 2 [1, 2]) 3
        (exChannel Order.ORDERED) exSourceConnection ∧
      acceptAll.VerifyMembership exSourceConnection 7 []
        (Path.NextSequenceRecvPath "bank" "chan-b") (Uint64ToBigEndian 3) = true ∧
      CleanupPacket acceptAll ⟨5, exSourceCommitted Order.ORDERED 3 2 [1, 2]⟩ (exPacket 2 [1, 2])
          [] 7 3 [9] =
        Outcome.error (exSourceCommitted Order.ORDERED 3 2 [1, 2])
          PacketError.packetAlreadyReceived) ∧
    (CleanupPreconditions ⟨5, exSourceCommitted Order.UNORDERED 3 2 [1, 2]⟩ (exPacket 2 [1, 2]) 3
        (exChannel Order.UNORDERED) exSourceConnection ∧
      acceptAll.VerifyMembership exSourceConnection 7 []
        (Path.PacketAcknowledgementPath "transfer" "chan-a" 2) [9] = true ∧
      CleanupPacket acceptAll ⟨5, exSourceCommitted Order.UNORDERED 3 2 [1, 2]⟩
          (exPacket 2 [1, 2]) [] 7 3 [9] =
        Outcome.error (exSourceCommitted Order.UNORDERED 3 2 [1, 2])
          PacketError.packetAlreadyReceived) ∧
    (CleanupPacket rejectAll ⟨5, exSourceCommitted Order.ORDERED 3 2 [1, 2]⟩ (exPacket 2 [1, 2])
          [] 7 3 [9] =
        Outcome.error (exSourceCommitted Order.ORDERED 3 2 [1, 2])
          PacketError.packetAlreadyReceived ∧
      PacketError.packetAlreadyReceived.kind ≠ ErrorKind.ProofFailure) :=
  ⟨⟨⟨rfl, rfl, rfl, rfl, rfl, rfl, by decide, rfl⟩, rfl, rfl⟩,
   ⟨⟨rfl, rfl, rfl, rfl, rfl, rfl, by decide, rfl⟩, rfl, rfl⟩,
   ⟨rfl, by decide⟩⟩

/-- C9: the round trip on an ORDERED channel stops at the cleanup.
`SendPacket` of the packet of sequence 1 succeeds on the source,
`RecvPacket` succeeds on the destination and advances its receive counter
from 1 to 2, and `CleanupPacket` on the source with `nextSequenceRecv = 2` and
an accepting verifier fails with the "packet already received" error; the
commitment of the packet remains in the source store. -/
theorem C9_round_trip_cleanup_fails :
    ∃ src dst,
      SendPacket acceptAll ⟨5, exSource Order.ORDERED 1⟩ (exPacket 1 [1, 2]) =
        Outcome.ok src () ∧
      RecvPacket acceptAll ⟨5, exDest Order.ORDERED (some 1)⟩ (exPacket 1 [1, 2]) [] 7 [] =
        Outcome.ok dst (exPacket 1 [1, 2]) ∧
      (exDest Order.ORDERED (some 1)).nextSequenceRecv ("bank", "chan-b") = some 1 ∧
      dst.nextSequenceRecv ("bank", "chan-b") = some 2 ∧
      CleanupPacket acceptAll ⟨6, src⟩ (exPacket 1 [1, 2]) [] 7 2 [] =
        Outcome.error src PacketError.packetAlreadyReceived ∧
      src.packetCommitments ("transfer", "chan-a", 1) = some [1, 2] :=
  ⟨_, _, rfl, rfl, rfl, rfl, rfl, rfl⟩

/-- An error of `SendPacket` or `CleanupPacket` comes with the input store, and
the same call on that store returns the same error.  When the stored
commitment differs from the packet data, `CleanupPacket` does not succeed and
an error leaves the commitment with its bytes; the error is the "packet hasn't
been sent" one when the checks the code makes before the comparison pass,
among them `nextSequenceRecv < sequence`, the reverse of precondition 5 of
specification 4.3. -/
theorem Send_Cleanup_error_keeps_store (k : Keeper) (ctx : Context) (p : Packet)
    (proof : Proof) (proofHeight nextSequenceRecv : Nat) (ack : Bytes) :
    (∀ s' e, SendPacket k ctx p = Outcome.error s' e →
      s' = ctx.store ∧ SendPacket k ⟨ctx.BlockHeight, s'⟩ p = Outcome.error s' e) ∧
    (∀ s' e, CleanupPacket k ctx p proof proofHeight nextSequenceRecv ack = Outcome.error s' e →
      s' = ctx.store ∧
      CleanupPacket k ⟨ctx.BlockHeight, s'⟩ p proof proofHeight nextSequenceRecv ack =
        Outcome.error s' e) ∧
    (∀ c, ctx.store.packetCommitments (p.SourcePort, p.SourceChannel, p.Sequence) = some c →
      c ≠ p.Data →
      (CleanupPacket k ctx p proof proofHeight nextSequenceRecv ack).isOk = false ∧
      (∀ s' e, CleanupPacket k ctx p proof proofHeight nextSequenceRecv ack = Outcome.error s' e →
        s'.packetCommitments (p.SourcePort, p.SourceChannel, p.Sequence) = some c) ∧
      (∀ ch conn, CleanupReaches ctx p nextSequenceRecv ch conn →
        CleanupPacket k ctx p proof proofHeight nextSequenceRecv ack =
          Outcome.error ctx.store PacketError.packetHasntBeenSent ∧
        PacketError.packetHasntBeenSent.kind = ErrorKind.CommitmentMismatch)) := by
  refine ⟨?_, ?_, ?_⟩
  · intro s' e h
    have hs := SendPacket_error_store h
    subst hs
    exact ⟨rfl, h⟩
  · intro s' e h
    have hs := CleanupPacket_error_store h
    subst hs
    exact ⟨rfl, h⟩
  · intro c hc hne
    have hget : GetPacketCommitment ctx p.SourcePort p.SourceChannel p.Sequence ≠ p.Data := by
      simp [GetPacketCommitment, hc, hne]
    refine ⟨?_, ?_, ?_⟩
    · cases hr : CleanupPacket k ctx p proof proofHeight nextSequenceRecv ack with
      | ok s' v =>
        obtain ⟨_, _, _, -, hcm, -⟩ := CleanupPacket_ok_inv hr
        exact absurd hcm hget
      | error s' e => rfl
      | fault f => rfl
    · intro s' e h
      rw [CleanupPacket_error_store h]
      exact hc
    · intro ch conn hreach
      rw [CleanupPacket_of_reaches hreach, if_pos hget]
      exact ⟨rfl, rfl⟩

/-- C10: a cleanup whose data differs from the stored commitment is not
reported as a commitment mismatch when `nextSequenceRecv` is greater than the
sequence.  Preconditions 1 to 5 of specification 4.3 hold (they hold, with
precondition 6, of the packet that carries the committed bytes [1, 2]), the
packet data [1, 3] differs from the commitment in its last byte, and
`CleanupPacket` returns the "packet already received" error, a sequence
violation.  The store is the input store, the commitment keeps its bytes, and
the repeated call returns the same error. -/
theorem C10_Cleanup_mismatch_reported_as_sequence_violation :
    CleanupPreconditions ⟨5, exSourceCommitted Order.ORDERED 3 2 [1, 2]⟩ (exPacket 2 [1, 2]) 3
      (exChannel Order.ORDERED) exSourceConnection ∧
    (exSourceCommitted Order.ORDERED 3 2 [1, 2]).packetCommitments ("transfer", "chan-a", 2) =
      some [1, 2] ∧
    ([1, 2] : Bytes) ≠ (exPacket 2 [1, 3]).Data ∧
    CleanupPacket acceptAll ⟨5, exSourceCommitted Order.ORDERED 3 2 [1, 2]⟩ (exPacket 2 [1, 3])
        [] 7 3 [] =
      Outcome.error (exSourceCommitted Order.ORDERED 3 2 [1, 2])
        PacketError.packetAlreadyReceived ∧
    PacketError.packetAlreadyReceived.kind = ErrorKind.SequenceViolation ∧
    PacketError.packetAlreadyReceived.kind ≠ ErrorKind.CommitmentMismatch ∧
    CleanupPacket rejectAll ⟨5, exSourceCommitted Order.UNORDERED 3 2 [1, 2]⟩ (exPacket 2 [1, 3])
        [] 7 3 [9] =
      Outcome.error (exSourceCommitted Order.UNORDERED 3 2 [1, 2])
        PacketError.packetAlreadyReceived :=
  ⟨⟨rfl, rfl, rfl, rfl, rfl, rfl, by decide, rfl⟩, rfl, by decide, rfl, rfl, by decide, rfl⟩


/-! ### Frames of the three operations -/

/-- With its preconditions given, `SendPacket` succeeds and writes the counter
and the commitment. -/
theorem SendPacket_of_facts {k : Keeper} {ctx : Context} {p : Packet} {ch : Channel}
    {cap : CapabilityKey} {hop : String} {rest : List String} {conn : ConnectionEnd}
    {cs : ConsensusState}
    (hch : ctx.store.channels (p.SourcePort, p.SourceChannel) = some ch)
    (hst : ch.State ≠ ChannelState.CLOSED)
    (hcap : ctx.store.capabilities (p.SourcePort, p.SourceChannel) = some cap)
    (hdp : p.DestPort = ch.Counterparty.PortID)
    (hdc : p.DestChannel = ch.Counterparty.ChannelID)
    (hh : ch.ConnectionHops = hop :: rest)
    (hconn : ctx.store.connections hop = some conn)
    (hcs : conn.State ≠ ConnectionState.NONE)
    (hcons : ctx.store.consensusStates conn.ClientID = some cs)
    (hlt : cs.Height < p.TimeoutHeight)
    (hn : ctx.store.nextSequenceSend (p.SourcePort, p.SourceChannel) = some p.Sequence) :
    SendPacket k ctx p =
      Outcome.ok (SetPacketCommitment
        (SetNextSequenceSend ctx.store p.SourcePort p.SourceChannel (uint64Inc p.Sequence))
        p.SourcePort p.SourceChannel p.Sequence p.Data) () := by
  unfold SendPacket
  simp only [GetChannel, GetChannelCapability, GetConnection, GetConsensusState,
    GetNextSequenceSend, hch, hst, hcap, ← hdp, ← hdc, hh, hconn, hcs, hcons,
    Nat.not_le.mpr hlt, hn, ne_eq, not_true_eq_false, if_false, ge_iff_le]

/-- The send counters after a call of `SendPacket`: the counter of the packet's
channel is advanced on success, every other one is kept, and a call that does
not succeed keeps them all. -/
theorem SendPacket_next_counter (k : Keeper) (h : Int) (s : Store) (p : Packet) :
    ((SendPacket k ⟨h, s⟩ p).isOk = true →
      s.nextSequenceSend (p.SourcePort, p.SourceChannel) = some p.Sequence ∧
      (((SendPacket k ⟨h, s⟩ p).store?).getD s).nextSequenceSend
        (p.SourcePort, p.SourceChannel) = some (uint64Inc p.Sequence) ∧
      ∀ key, key ≠ (p.SourcePort, p.SourceChannel) →
        (((SendPacket k ⟨h, s⟩ p).store?).getD s).nextSequenceSend key =
          s.nextSequenceSend key) ∧
    ((SendPacket k ⟨h, s⟩ p).isOk = false →
      ((SendPacket k ⟨h, s⟩ p).store?).getD s = s) := by
  cases hr : SendPacket k ⟨h, s⟩ p with
  | ok s' v =>
    obtain ⟨_, _, _, _, _, _, -, -, -, -, -, -, -, -, -, -, hn, hs⟩ := SendPacket_ok_inv hr
    subst hs
    refine ⟨fun _ => ⟨hn, ?_, ?_⟩, fun hf => by simp [Outcome.isOk] at hf⟩
    · simp [Outcome.store?, SetPacketCommitment, SetNextSequenceSend]
    · intro key hkey
      simp [Outcome.store?, SetPacketCommitment, SetNextSequenceSend,
        Function.update_noteq hkey]
  | error s' e =>
    have hs := SendPacket_error_store hr
    subst hs
    exact ⟨fun ht => by simp [Outcome.isOk] at ht, fun _ => rfl⟩
  | fault f =>
    exact ⟨fun ht => by simp [Outcome.isOk] at ht, fun _ => rfl⟩

/-- A call of `RecvPacket` keeps every part of the store but the
acknowledgements and the receive counters. -/
theorem RecvPacket_frame (k : Keeper) (ctx : Context) (p : Packet) (proof : Proof)
    (proofHeight : Nat) (ack : Bytes) (s' : Store)
    (h : (RecvPacket k ctx p proof proofHeight ack).store? = some s') :
    s'.channels = ctx.store.channels ∧
    s'.capabilities = ctx.store.capabilities ∧
    s'.connections = ctx.store.connections ∧
    s'.consensusStates = ctx.store.consensusStates ∧
    s'.nextSequenceSend = ctx.store.nextSequenceSend ∧
    s'.packetCommitments = ctx.store.packetCommitments := by
  have hack : ∀ ch : Channel,
      (recvAckStore ctx.store ch p ack).channels = ctx.store.channels ∧
      (recvAckStore ctx.store ch p ack).capabilities = ctx.store.capabilities ∧
      (recvAckStore ctx.store ch p ack).connections = ctx.store.connections ∧
      (recvAckStore ctx.store ch p ack).consensusStates = ctx.store.consensusStates ∧
      (recvAckStore ctx.store ch p ack).nextSequenceSend = ctx.store.nextSequenceSend ∧
      (recvAckStore ctx.store ch p ack).packetCommitments = ctx.store.packetCommitments := by
    intro ch
    unfold recvAckStore SetPacketAcknowledgement
    split <;> exact ⟨rfl, rfl, rfl, rfl, rfl, rfl⟩
  cases hr : RecvPacket k ctx p proof proofHeight ack with
  | ok s2 v =>
    rw [hr] at h
    simp only [Outcome.store?, Option.some.injEq] at h
    subst h
    obtain ⟨ch, conn, hpre⟩ := RecvPacket_ok_inv hr
    rw [RecvPacket_of_pre ack hpre] at hr
    by_cases hord : ch.Ordering = Order.ORDERED
    · rw [if_pos hord] at hr
      cases hn : ctx.store.nextSequenceRecv (p.DestPort, p.DestChannel) with
      | none => rw [hn] at hr; cases hr
      | some n =>
        rw [hn] at hr
        simp only [] at hr
        by_cases hseq : p.Sequence = n
        · rw [if_neg (not_not.mpr hseq)] at hr
          cases hr
          exact hack ch
        · rw [if_pos hseq] at hr; cases hr
    · rw [if_neg hord] at hr
      cases hr
      exact hack ch
  | error s2 e =>
    rw [hr] at h
    simp only [Outcome.store?, Option.some.injEq] at h
    subst h
    rcases RecvPacket_error_store hr with hs | ⟨ch, -, -, hs, -⟩
    · subst hs; exact ⟨rfl, rfl, rfl, rfl, rfl, rfl⟩
    · subst hs; exact hack ch
  | fault f =>
    rw [hr] at h
    simp [Outcome.store?] at h

/-- A call of `CleanupPacket` keeps every part of the store but the
commitments. -/
theorem CleanupPacket_frame (k : Keeper) (ctx : Context) (p : Packet) (proof : Proof)
    (proofHeight nextSequenceRecv : Nat) (ack : Bytes) (s' : Store)
    (h : (CleanupPacket k ctx p proof proofHeight nextSequenceRecv ack).store? = some s') :
    s'.channels = ctx.store.channels ∧
    s'.capabilities = ctx.store.capabilities ∧
    s'.connections = ctx.store.connections ∧
    s'.consensusStates = ctx.store.consensusStates ∧
    s'.nextSequenceSend = ctx.store.nextSequenceSend ∧
    s'.nextSequenceRecv = ctx.store.nextSequenceRecv ∧
    s'.packetAcknowledgements = ctx.store.packetAcknowledgements := by
  cases hr : CleanupPacket k ctx p proof proofHeight nextSequenceRecv ack with
  | ok s2 v =>
    rw [hr] at h
    simp only [Outcome.store?, Option.some.injEq] at h
    subst h
    obtain ⟨_, _, _, -, -, -, -, -, hs⟩ := CleanupPacket_ok_inv hr
    subst hs
    exact ⟨rfl, rfl, rfl, rfl, rfl, rfl, rfl⟩
  | error s2 e =>
    rw [hr] at h
    simp only [Outcome.store?, Option.some.injEq] at h
    subst h
    have hs := CleanupPacket_error_store hr
    subst hs
    exact ⟨rfl, rfl, rfl, rfl, rfl, rfl, rfl⟩
  | fault f =>
    rw [hr] at h
    simp [Outcome.store?] at h

/-- A call that sends on (portID, channelID) carries the value of that
channel's send counter and advances it; any other call keeps the counter. -/
theorem Call.next_counter (k : Keeper) (s : Store) (portID channelID : String) (c : Call) :
    (∀ q, c.sent k s portID channelID = some q →
      s.nextSequenceSend (portID, channelID) = some q ∧
      (c.next k s).nextSequenceSend (portID, channelID) = some (uint64Inc q)) ∧
    (c.sent k s portID channelID = none →
      (c.next k s).nextSequenceSend (portID, channelID) =
        s.nextSequenceSend (portID, channelID)) := by
  cases c with
  | send h p =>
    have hc := SendPacket_next_counter k h s p
    simp only [Call.sent, Call.next]
    by_cases hok : (SendPacket k ⟨h, s⟩ p).isOk = true
    · obtain ⟨hold, hnew, hother⟩ := hc.1 hok
      by_cases hkey : p.SourcePort = portID ∧ p.SourceChannel = channelID
      · obtain ⟨hp1, hp2⟩ := hkey
        subst hp1 hp2
        simp only [hok, and_self, if_true, Option.some.injEq]
        refine ⟨?_, fun hn => by simp at hn⟩
        intro q hq
        subst hq
        exact ⟨hold, hnew⟩
      · have hne : (portID, channelID) ≠ (p.SourcePort, p.SourceChannel) := by
          intro heq
          apply hkey
          simp only [Prod.mk.injEq] at heq
          exact ⟨heq.1.symm, heq.2.symm⟩
        have hif : ¬ (p.SourcePort = portID ∧ p.SourceChannel = channelID ∧
            (SendPacket k ⟨h, s⟩ p).isOk = true) := fun hh => hkey ⟨hh.1, hh.2.1⟩
        rw [if_neg hif]
        exact ⟨fun q hq => by simp at hq, fun _ => hother _ hne⟩
    · have hif : ¬ (p.SourcePort = portID ∧ p.SourceChannel = channelID ∧
          (SendPacket k ⟨h, s⟩ p).isOk = true) := fun hh => hok hh.2.2
      rw [if_neg hif]
      have hfalse : (SendPacket k ⟨h, s⟩ p).isOk = false := by simpa using hok
      rw [hc.2 hfalse]
      exact ⟨fun q hq => by simp at hq, fun _ => rfl⟩
  | recv h p proof proofHeight ack =>
    simp only [Call.sent, Call.next]
    refine ⟨fun q hq => by simp at hq, fun _ => ?_⟩
    cases hst : (RecvPacket k ⟨h, s⟩ p proof proofHeight ack).store? with
    | none => rfl
    | some s' =>
      have hf := RecvPacket_frame k ⟨h, s⟩ p proof proofHeight ack s' hst
      simp only [Option.getD_some]
      rw [hf.2.2.2.2.1]
  | cleanup h p proof proofHeight nextSequenceRecv ack =>
    simp only [Call.sent, Call.next]
    refine ⟨fun q hq => by simp at hq, fun _ => ?_⟩
    cases hst : (CleanupPacket k ⟨h, s⟩ p proof proofHeight nextSequenceRecv ack).store? with
    | none => rfl
    | some s' =>
      have hf := CleanupPacket_frame k ⟨h, s⟩ p proof proofHeight nextSequenceRecv ack s' hst
      simp only [Option.getD_some]
      rw [hf.2.2.2.2.1]

/-- From a store whose send counter is `n` (as a 64-bit value), a trace that
cannot overflow the counter sends `n`, `n + 1`, and so on. -/
theorem sentSequences_eq_range (k : Keeper) (portID channelID : String) (trace : List Call) :
    ∀ (s : Store) (n : Nat), s.nextSequenceSend (portID, channelID) = some (n % 2 ^ 64) →
      n + trace.length ≤ 2 ^ 64 →
      sentSequences k portID channelID s trace =
        List.range' n (sentSequences k portID channelID s trace).length := by
  induction trace with
  | nil => intro s n _ _; simp [sentSequences]
  | cons c cs ih =>
    intro s n hn hlen
    simp only [List.length_cons] at hlen
    have hlt : n < 2 ^ 64 := by omega
    have hmod : n % 2 ^ 64 = n := Nat.mod_eq_of_lt hlt
    obtain ⟨hsent, hkeep⟩ := Call.next_counter k s portID channelID c
    unfold sentSequences
    cases hq : c.sent k s portID channelID with
    | none =>
      simp only []
      have hnext := hkeep hq
      rw [hn] at hnext
      exact ih (c.next k s) n hnext (by omega)
    | some q =>
      simp only []
      obtain ⟨hold, hnew⟩ := hsent q hq
      rw [hn, hmod] at hold
      have hqn : q = n := (Option.some.inj hold).symm
      subst hqn
      have hnext : (c.next k s).nextSequenceSend (portID, channelID) =
          some ((q + 1) % 2 ^ 64) := by
        rw [hnew]; rfl
      have hrec := ih (c.next k s) (q + 1) hnext (by omega)
      rw [List.length_cons, List.range'_succ, ← hrec]

/-- C11: sequence discipline of `SendPacket`.  Along every trace of fewer than
2^64 calls from a store whose send counter of (portID, channelID) is 1, the
sequence numbers of the successful sends on that channel are 1, 2, ..., k in
order.  After any successful send of sequence s, the same send on the
resulting store fails with the sequence error, and the send of the same packet
with sequence s + 1 (as a 64-bit value) succeeds. -/
theorem C11_SendPacket_sequence_discipline (k : Keeper) (portID channelID : String)
    (s : Store) (trace : List Call)
    (hinit : s.nextSequenceSend (portID, channelID) = some 1)
    (hlen : trace.length < 2 ^ 64) :
    sentSequences k portID channelID s trace =
      List.range' 1 (sentSequences k portID channelID s trace).length ∧
    (∀ (ctx : Context) (p : Packet) (s' : Store) (v : Unit),
      SendPacket k ctx p = Outcome.ok s' v →
      (∀ height, SendPacket k ⟨height, s'⟩ p =
        Outcome.error s' PacketError.invalidPacketSequence) ∧
      PacketError.invalidPacketSequence.kind = ErrorKind.SequenceViolation ∧
      (∀ height, (SendPacket k ⟨height, s'⟩
        { p with Sequence := (p.Sequence + 1) % 2 ^ 64 }).isOk = true) ∧
      (p.Sequence + 1 < 2 ^ 64 → ∀ height,
        (SendPacket k ⟨height, s'⟩ { p with Sequence := p.Sequence + 1 }).isOk = true)) := by
  refine ⟨sentSequences_eq_range k portID channelID trace s 1 ?_ (by omega), ?_⟩
  · rw [hinit]; rfl
  · intro ctx p s' v hok
    obtain ⟨ch, cap, hop, rest, conn, cs, hch, hst, hcap, hdp, hdc, hh, hconn, hcs, hcons, hlt,
      hn, hs⟩ := SendPacket_ok_inv hok
    subst hs
    have hcnt : (SetPacketCommitment (SetNextSequenceSend ctx.store p.SourcePort p.SourceChannel
        (uint64Inc p.Sequence)) p.SourcePort p.SourceChannel p.Sequence
        p.Data).nextSequenceSend (p.SourcePort, p.SourceChannel) =
        some ((p.Sequence + 1) % 2 ^ 64) := by
      simp [SetPacketCommitment, SetNextSequenceSend, uint64Inc]
    have hne : p.Sequence ≠ (p.Sequence + 1) % 2 ^ 64 := by
      have h64 : (2 : Nat) ^ 64 = 18446744073709551616 := by norm_num
      rw [h64]
      omega
    have hsucc : ∀ height, (SendPacket k ⟨height, SetPacketCommitment (SetNextSequenceSend
        ctx.store p.SourcePort p.SourceChannel (uint64Inc p.Sequence)) p.SourcePort
        p.SourceChannel p.Sequence p.Data⟩
        { p with Sequence := (p.Sequence + 1) % 2 ^ 64 }).isOk = true := by
      intro height
      have hrun := @SendPacket_of_facts k ⟨height, SetPacketCommitment (SetNextSequenceSend
        ctx.store p.SourcePort p.SourceChannel (uint64Inc p.Sequence)) p.SourcePort
        p.SourceChannel p.Sequence p.Data⟩ { p with Sequence := (p.Sequence + 1) % 2 ^ 64 }
        ch cap hop rest conn cs hch hst hcap hdp hdc hh hconn hcs hcons hlt hcnt
      rw [hrun]
      rfl
    refine ⟨?_, rfl, hsucc, ?_⟩
    · intro height
      unfold SendPacket
      simp only [GetChannel, GetChannelCapability, GetConnection, GetConsensusState,
        GetNextSequenceSend, hcnt]
      simp only [SetPacketCommitment, SetNextSequenceSend, hch, hst, hcap, ← hdp, ← hdc, hh,
        hconn, hcs, hcons, Nat.not_le.mpr hlt, hne, ne_eq, not_true_eq_false, if_false,
        ge_iff_le, not_false_eq_true, if_true]
    · intro hfit height
      have := hsucc height
      rwa [Nat.mod_eq_of_lt hfit] at this

/-- The hypotheses of C11 hold of a concrete trace, and the theorem applies
there: of its three sends the first and the third succeed, with sequences 1
and 2. -/
theorem C11_SendPacket_sequence_discipline_witness :
    (exSource Order.ORDERED 1).nextSequenceSend ("transfer", "chan-a") = some 1 ∧
    exTrace.length < 2 ^ 64 ∧
    sentSequences acceptAll "transfer" "chan-a" (exSource Order.ORDERED 1) exTrace = [1, 2] ∧
    sentSequences acceptAll "transfer" "chan-a" (exSource Order.ORDERED 1) exTrace =
      List.range' 1
        (sentSequences acceptAll "transfer" "chan-a" (exSource Order.ORDERED 1) exTrace).length :=
  ⟨rfl, by decide, by decide,
    (C11_SendPacket_sequence_discipline acceptAll "transfer" "chan-a" (exSource Order.ORDERED 1)
      exTrace rfl (by decide)).1⟩



/-! ### RecvPacket and the receive counters -/

/-- Two calls of `RecvPacket` at the same height on stores with the same
channels, capabilities and connections either both pass preconditions 1 to 6
(for the same channel and connection), or both return the same error on their
input stores, or both fault alike. -/
theorem RecvPacket_cases_pair (k : Keeper) (h : Int) (s1 s2 : Store) (p : Packet) (proof : Proof)
    (proofHeight : Nat) (ack : Bytes)
    (hchan : s2.channels = s1.channels) (hcaps : s2.capabilities = s1.capabilities)
    (hconns : s2.connections = s1.connections) :
    (∃ ch conn, RecvPreconditions k ⟨h, s1⟩ p proof proofHeight ch conn ∧
      RecvPreconditions k ⟨h, s2⟩ p proof proofHeight ch conn) ∨
    (∃ e, RecvPacket k ⟨h, s1⟩ p proof proofHeight ack = Outcome.error s1 e ∧
      RecvPacket k ⟨h, s2⟩ p proof proofHeight ack = Outcome.error s2 e) ∨
    (∃ f, RecvPacket k ⟨h, s1⟩ p proof proofHeight ack = Outcome.fault f ∧
      RecvPacket k ⟨h, s2⟩ p proof proofHeight ack = Outcome.fault f) := by
  unfold RecvPacket
  simp only [GetChannel, GetChannelCapability, GetConnection, hchan, hcaps, hconns]
  cases hch : s1.channels (p.SourcePort, p.SourceChannel) with
  | none => exact Or.inr (Or.inl ⟨_, rfl, rfl⟩)
  | some ch =>
    simp only []
    by_cases hst : ch.State = ChannelState.OPEN
    swap
    · rw [if_pos hst, if_pos hst]; exact Or.inr (Or.inl ⟨_, rfl, rfl⟩)
    rw [if_neg (not_not.mpr hst), if_neg (not_not.mpr hst)]
    cases hcap : s1.capabilities (p.SourcePort, p.SourceChannel) with
    | none => exact Or.inr (Or.inl ⟨_, rfl, rfl⟩)
    | some cap =>
      simp only []
      by_cases hsp : p.SourcePort = ch.Counterparty.PortID
      swap
      · rw [if_pos hsp, if_pos hsp]; exact Or.inr (Or.inl ⟨_, rfl, rfl⟩)
      rw [if_neg (not_not.mpr hsp), if_neg (not_not.mpr hsp)]
      by_cases hsc : p.SourceChannel = ch.Counterparty.ChannelID
      swap
      · rw [if_pos hsc, if_pos hsc]; exact Or.inr (Or.inl ⟨_, rfl, rfl⟩)
      rw [if_neg (not_not.mpr hsc), if_neg (not_not.mpr hsc)]
      cases hh : ch.ConnectionHops with
      | nil => exact Or.inr (Or.inr ⟨_, rfl, rfl⟩)
      | cons hop rest =>
        simp only []
        cases hconn : s1.connections hop with
        | none => exact Or.inr (Or.inl ⟨_, rfl, rfl⟩)
        | some conn =>
          simp only []
          by_cases hco : conn.State = ConnectionState.OPEN
          swap
          · rw [if_pos hco, if_pos hco]; exact Or.inr (Or.inl ⟨_, rfl, rfl⟩)
          rw [if_neg (not_not.mpr hco), if_neg (not_not.mpr hco)]
          by_cases hexp : uint64OfInt64 h < p.TimeoutHeight
          swap
          · rw [if_pos (Nat.le_of_not_lt hexp), if_pos (Nat.le_of_not_lt hexp)]
            exact Or.inr (Or.inl ⟨_, rfl, rfl⟩)
          by_cases hv : k.VerifyMembership conn proofHeight proof
              (Path.ChannelPath p.SourcePort p.SourceChannel) p.Data = true
          swap
          · rw [if_neg (Nat.not_le.mpr hexp), if_pos hv, if_neg (Nat.not_le.mpr hexp), if_pos hv]
            exact Or.inr (Or.inl ⟨_, rfl, rfl⟩)
          exact Or.inl ⟨ch, conn,
            ⟨hch, hst, by simp [hcap], hsp, hsc, by simp [hh, hconn], hco, hexp, hv⟩,
            ⟨by rw [hchan]; exact hch, hst, by simp [hcaps, hcap], hsp, hsc,
              by simp [hh, hconns, hconn], hco, hexp, hv⟩⟩

/-- The store a successful `RecvPacket` leaves: on an ORDERED channel the
counter held the packet sequence and is advanced over the acknowledgement
step; on any other channel the store is the one of the acknowledgement step. -/
theorem RecvPacket_ok_store {k : Keeper} {ctx : Context} {p : Packet} {proof : Proof}
    {proofHeight : Nat} {ack : Bytes} {s' : Store} {v : Packet}
    (h : RecvPacket k ctx p proof proofHeight ack = Outcome.ok s' v) :
    ∃ ch conn, RecvPreconditions k ctx p proof proofHeight ch conn ∧ v = p ∧
      (ch.Ordering = Order.ORDERED →
        ctx.store.nextSequenceRecv (p.DestPort, p.DestChannel) = some p.Sequence ∧
        s' = SetNextSequenceRecv (recvAckStore ctx.store ch p ack) p.DestPort p.DestChannel
          (uint64Inc p.Sequence)) ∧
      (ch.Ordering ≠ Order.ORDERED → s' = recvAckStore ctx.store ch p ack) := by
  obtain ⟨ch, conn, hpre⟩ := RecvPacket_ok_inv h
  refine ⟨ch, conn, hpre, ?_⟩
  rw [RecvPacket_of_pre ack hpre] at h
  by_cases hord : ch.Ordering = Order.ORDERED
  · rw [if_pos hord] at h
    cases hn : ctx.store.nextSequenceRecv (p.DestPort, p.DestChannel) with
    | none => rw [hn] at h; cases h
    | some n =>
      rw [hn] at h
      simp only [] at h
      by_cases hseq : p.Sequence = n
      · rw [if_neg (not_not.mpr hseq)] at h
        cases h
        subst hseq
        exact ⟨rfl, fun _ => ⟨rfl, rfl⟩, fun hne => absurd hord hne⟩
      · rw [if_pos hseq] at h; cases h
  · rw [if_neg hord] at h
    cases h
    exact ⟨rfl, fun ho => absurd ho hord, fun _ => rfl⟩

/-- C12: `RecvPacket` on an UNORDERED channel neither reads nor writes the
receive counters.  On two stores that differ only in their NextSequenceRecv
entries the call returns the same error, value or fault, each run leaves the
NextSequenceRecv entries of its input store, and the two resulting stores
again differ only in those entries. -/
theorem C12_RecvPacket_unordered_ignores_counter (k : Keeper) (h : Int) (s : Store) (p : Packet)
    (proof : Proof) (proofHeight : Nat) (ack : Bytes) (r : String × String → Option Nat)
    (hun : ∀ ch, s.channels (p.SourcePort, p.SourceChannel) = some ch →
      ch.Ordering = Order.UNORDERED) :
    (RecvPacket k ⟨h, s⟩ p proof proofHeight ack).err? =
      (RecvPacket k ⟨h, { s with nextSequenceRecv := r }⟩ p proof proofHeight ack).err? ∧
    (RecvPacket k ⟨h, s⟩ p proof proofHeight ack).value? =
      (RecvPacket k ⟨h, { s with nextSequenceRecv := r }⟩ p proof proofHeight ack).value? ∧
    (RecvPacket k ⟨h, s⟩ p proof proofHeight ack).fault? =
      (RecvPacket k ⟨h, { s with nextSequenceRecv := r }⟩ p proof proofHeight ack).fault? ∧
    (∀ s1, (RecvPacket k ⟨h, s⟩ p proof proofHeight ack).store? = some s1 →
      s1.nextSequenceRecv = s.nextSequenceRecv) ∧
    (∀ s2, (RecvPacket k ⟨h, { s with nextSequenceRecv := r }⟩ p proof proofHeight ack).store? =
      some s2 → s2.nextSequenceRecv = r) ∧
    (∀ s1 s2, (RecvPacket k ⟨h, s⟩ p proof proofHeight ack).store? = some s1 →
      (RecvPacket k ⟨h, { s with nextSequenceRecv := r }⟩ p proof proofHeight ack).store? =
        some s2 → s2 = { s1 with nextSequenceRecv := r }) := by
  have hack : ∀ (t : Store) (ch : Channel),
      (recvAckStore t ch p ack).nextSequenceRecv = t.nextSequenceRecv ∧
      recvAckStore { t with nextSequenceRecv := r } ch p ack =
        { recvAckStore t ch p ack with nextSequenceRecv := r } := by
    intro t ch
    unfold recvAckStore SetPacketAcknowledgement
    split <;> exact ⟨rfl, rfl⟩
  rcases RecvPacket_cases_pair k h s { s with nextSequenceRecv := r } p proof proofHeight ack
    rfl rfl rfl with ⟨ch, conn, hp1, hp2⟩ | ⟨e, h1, h2⟩ | ⟨f, h1, h2⟩
  · have hord : ¬ ch.Ordering = Order.ORDERED := by
      rw [hun ch hp1.channel_exists]; decide
    have hr1 := RecvPacket_of_pre ack hp1
    have hr2 := RecvPacket_of_pre ack hp2
    rw [if_neg hord] at hr1 hr2
    rw [hr1, hr2]
    simp only [Outcome.err?, Outcome.value?, Outcome.fault?, Outcome.store?, Option.some.injEq,
      true_and]
    refine ⟨?_, ?_, ?_⟩
    · intro s1 hs1
      subst hs1
      exact (hack s ch).1
    · intro s2 hs2
      subst hs2
      exact (hack _ ch).1
    · intro s1 s2 hs1 hs2
      subst hs1 hs2
      exact (hack s ch).2
  · rw [h1, h2]
    simp only [Outcome.err?, Outcome.value?, Outcome.fault?, Outcome.store?, Option.some.injEq,
      true_and]
    refine ⟨?_, ?_, ?_⟩
    · intro s1 hs1; subst hs1; rfl
    · intro s2 hs2; subst hs2; rfl
    · intro s1 s2 hs1 hs2; subst hs1 hs2; rfl
  · rw [h1, h2]
    simp [Outcome.err?, Outcome.value?, Outcome.fault?, Outcome.store?]

/-- The hypothesis of C12 holds of a concrete unordered receive, and the
theorem applies there: with the counter absent or set to 7 the call returns
the same packet. -/
theorem C12_RecvPacket_unordered_ignores_counter_witness :
    (∀ ch, (exDest Order.UNORDERED none).channels
        ((exPacket 3 [1, 2]).SourcePort, (exPacket 3 [1, 2]).SourceChannel) = some ch →
      ch.Ordering = Order.UNORDERED) ∧
    (RecvPacket acceptAll ⟨5, exDest Order.UNORDERED none⟩ (exPacket 3 [1, 2]) [] 7 []).value? =
      some (exPacket 3 [1, 2]) ∧
    (RecvPacket acceptAll ⟨5, exDest Order.UNORDERED none⟩ (exPacket 3 [1, 2]) [] 7 []).value? =
      (RecvPacket acceptAll
        ⟨5, { exDest Order.UNORDERED none with nextSequenceRecv := fun _ => some 7 }⟩
        (exPacket 3 [1, 2]) [] 7 []).value? :=
  have hun : ∀ ch, (exDest Order.UNORDERED none).channels
      ((exPacket 3 [1, 2]).SourcePort, (exPacket 3 [1, 2]).SourceChannel) = some ch →
      ch.Ordering = Order.UNORDERED := by
    intro ch hch
    simp only [exDest, exPacket, if_true, Option.some.injEq] at hch
    subst hch
    rfl
  ⟨hun, rfl,
    (C12_RecvPacket_unordered_ignores_counter acceptAll 5 (exDest Order.UNORDERED none)
      (exPacket 3 [1, 2]) [] 7 [] (fun _ => some 7) hun).2.1⟩

/-- C13: the acknowledgement write rule of `RecvPacket`.  After a successful
call on the channel `ch`, when the acknowledgement is non-empty or the channel
is UNORDERED the store holds the supplied bytes for (destPort, destChannel,
sequence), also when they are empty, and every other acknowledgement is as
before; when the channel is ORDERED and the acknowledgement is empty no
acknowledgement entry is created or changed. -/
theorem C13_RecvPacket_acknowledgement_rule (k : Keeper) (ctx : Context) (p : Packet)
    (proof : Proof) (proofHeight : Nat) (ack : Bytes) (s' : Store) (v : Packet)
    (h : RecvPacket k ctx p proof proofHeight ack = Outcome.ok s' v) :
    ∃ ch, ctx.store.channels (p.SourcePort, p.SourceChannel) = some ch ∧
      (ack ≠ [] ∨ ch.Ordering = Order.UNORDERED →
        s'.packetAcknowledgements (p.DestPort, p.DestChannel, p.Sequence) = some ack ∧
        ∀ key, key ≠ (p.DestPort, p.DestChannel, p.Sequence) →
          s'.packetAcknowledgements key = ctx.store.packetAcknowledgements key) ∧
      (ch.Ordering = Order.ORDERED ∧ ack = [] →
        s'.packetAcknowledgements = ctx.store.packetAcknowledgements) := by
  obtain ⟨ch, conn, hpre, -, hord, hun⟩ := RecvPacket_ok_store h
  have hacks : s'.packetAcknowledgements =
      (recvAckStore ctx.store ch p ack).packetAcknowledgements := by
    by_cases ho : ch.Ordering = Order.ORDERED
    · rw [(hord ho).2]; rfl
    · rw [hun ho]
  refine ⟨ch, hpre.channel_exists, ?_, ?_⟩
  · intro hw
    have hcond : ack.length > 0 ∨ ch.Ordering = Order.UNORDERED := by
      rcases hw with hne | hu
      · exact Or.inl (List.length_pos.mpr hne)
      · exact Or.inr hu
    rw [hacks]
    unfold recvAckStore
    rw [if_pos hcond]
    refine ⟨by simp [SetPacketAcknowledgement], ?_⟩
    intro key hkey
    simp [SetPacketAcknowledgement, Function.update_noteq hkey]
  · rintro ⟨ho, hempty⟩
    have hcond : ¬ (ack.length > 0 ∨ ch.Ordering = Order.UNORDERED) := by
      subst hempty
      rw [ho]
      simp
    rw [hacks]
    unfold recvAckStore
    rw [if_neg hcond]

/-- The hypothesis of C13 holds of a concrete unordered receive with an empty
acknowledgement, and the theorem applies there: the entry of sequence 3 is
created with empty bytes. -/
theorem C13_RecvPacket_acknowledgement_rule_witness :
    RecvPacket acceptAll ⟨5, exDest Order.UNORDERED none⟩ (exPacket 3 [1, 2]) [] 7 [] =
      Outcome.ok (SetPacketAcknowledgement (exDest Order.UNORDERED none) "bank" "chan-b" 3 [])
        (exPacket 3 [1, 2]) ∧
    (exDest Order.UNORDERED none).packetAcknowledgements ("bank", "chan-b", 3) = none ∧
    (SetPacketAcknowledgement (exDest Order.UNORDERED none) "bank" "chan-b" 3
      []).packetAcknowledgements ("bank", "chan-b", 3) = some [] :=
  have h : RecvPacket acceptAll ⟨5, exDest Order.UNORDERED none⟩ (exPacket 3 [1, 2]) [] 7 [] =
      Outcome.ok (SetPacketAcknowledgement (exDest Order.UNORDERED none) "bank" "chan-b" 3 [])
        (exPacket 3 [1, 2]) := by rfl
  have hc := C13_RecvPacket_acknowledgement_rule acceptAll ⟨5, exDest Order.UNORDERED none⟩
    (exPacket 3 [1, 2]) [] 7 [] _ _ h
  ⟨h, rfl, by
    obtain ⟨ch, hch, hw, -⟩ := hc
    have hu : ch.Ordering = Order.UNORDERED := by
      simp only [exDest, exPacket, if_true, Option.some.injEq] at hch
      subst hch
      rfl
    exact (hw (Or.inr hu)).1⟩

/-- C19: a duplicate receive on an UNORDERED channel is accepted and changes
nothing.  When `RecvPacket` succeeds on the UNORDERED channel `ch` and leaves
the store `s'`, the same call on `s'` at the same height succeeds again,
returns the same packet and leaves `s'`. -/
theorem C19_RecvPacket_unordered_duplicate (k : Keeper) (ctx : Context) (p : Packet)
    (proof : Proof) (proofHeight : Nat) (ack : Bytes) (s' : Store) (v : Packet) (ch : Channel)
    (hch : ctx.store.channels (p.SourcePort, p.SourceChannel) = some ch)
    (hun : ch.Ordering = Order.UNORDERED)
    (h : RecvPacket k ctx p proof proofHeight ack = Outcome.ok s' v) :
    RecvPacket k ⟨ctx.BlockHeight, s'⟩ p proof proofHeight ack = Outcome.ok s' v := by
  obtain ⟨ch2, conn, hpre, hv, -, hstore⟩ := RecvPacket_ok_store h
  have hc : ch2 = ch := by
    have h1 := hpre.channel_exists
    rw [hch] at h1
    exact (Option.some.inj h1).symm
  subst hc
  have hord : ¬ ch2.Ordering = Order.ORDERED := by rw [hun]; decide
  have hs := hstore hord
  have hack : recvAckStore ctx.store ch2 p ack =
      SetPacketAcknowledgement ctx.store p.DestPort p.DestChannel p.Sequence ack := by
    unfold recvAckStore
    rw [if_pos (Or.inr hun)]
  rw [hack] at hs
  subst hs
  rw [hv]
  obtain ⟨h1, h2, h3, h4, h5, h6, h7, h8, h9⟩ := hpre
  have hpre2 : RecvPreconditions k ⟨ctx.BlockHeight, SetPacketAcknowledgement ctx.store
      p.DestPort p.DestChannel p.Sequence ack⟩ p proof proofHeight ch2 conn :=
    ⟨h1, h2, h3, h4, h5, h6, h7, h8, h9⟩
  rw [RecvPacket_of_pre ack hpre2, if_neg hord]
  unfold recvAckStore
  rw [if_pos (Or.inr hun)]
  simp [SetPacketAcknowledgement]

/-- The hypotheses of C19 hold of a concrete unordered receive, and the
theorem applies there: the second receive of sequence 3 succeeds on the store
the first one left. -/
theorem C19_RecvPacket_unordered_duplicate_witness :
    (exDest Order.UNORDERED none).channels
        ((exPacket 3 [1, 2]).SourcePort, (exPacket 3 [1, 2]).SourceChannel) =
      some (exDestChannel Order.UNORDERED) ∧
    (exDestChannel Order.UNORDERED).Ordering = Order.UNORDERED ∧
    RecvPacket acceptAll ⟨5, exDest Order.UNORDERED none⟩ (exPacket 3 [1, 2]) [] 7 [9] =
      Outcome.ok (exDestAcked Order.UNORDERED none 3 [9]) (exPacket 3 [1, 2]) ∧
    RecvPacket acceptAll ⟨5, exDestAcked Order.UNORDERED none 3 [9]⟩ (exPacket 3 [1, 2]) [] 7 [9] =
      Outcome.ok (exDestAcked Order.UNORDERED none 3 [9]) (exPacket 3 [1, 2]) :=
  have h : RecvPacket acceptAll ⟨5, exDest Order.UNORDERED none⟩ (exPacket 3 [1, 2]) [] 7 [9] =
      Outcome.ok (exDestAcked Order.UNORDERED none 3 [9]) (exPacket 3 [1, 2]) := by rfl
  ⟨rfl, rfl, h,
    C19_RecvPacket_unordered_duplicate acceptAll ⟨5, exDest Order.UNORDERED none⟩
      (exPacket 3 [1, 2]) [] 7 [9] _ _ (exDestChannel Order.UNORDERED) rfl rfl h⟩



/-! ### Timeout height, channel state, faults and check order -/

/-- An outcome that is ok carries a store and a value. -/
theorem Outcome.isOk_iff {α : Type} (o : Outcome α) :
    o.isOk = true ↔ ∃ s v, o = Outcome.ok s v := by
  cases o with
  | ok s v => simp [Outcome.isOk]
  | error s e => simp [Outcome.isOk]
  | fault f => simp [Outcome.isOk]

/-- C14, as the code has it: a packet with timeout height 0 is expired at
every height.  `SendPacket` and `RecvPacket` never succeed on it; `SendPacket`
returns the "invalid height" error whenever it reaches the height comparison,
and `RecvPacket` the "packet receive timeout" error whenever preconditions 1
to 4 hold, whatever the tracked consensus height and the block height are. -/
theorem C14_timeout_zero_always_expired (k : Keeper) (ctx : Context) (p : Packet)
    (proof : Proof) (proofHeight : Nat) (ack : Bytes) (h0 : p.TimeoutHeight = 0) :
    (SendPacket k ctx p).isOk = false ∧
    (RecvPacket k ctx p proof proofHeight ack).isOk = false ∧
    (∀ ch conn cs, SendReachesHeight ctx p ch conn cs →
      SendPacket k ctx p = Outcome.error ctx.store PacketError.invalidHeight) ∧
    (∀ ch conn, RecvReachesHeight ctx p ch conn →
      RecvPacket k ctx p proof proofHeight ack =
        Outcome.error ctx.store PacketError.packetReceiveTimeout) ∧
    PacketError.invalidHeight.kind = ErrorKind.Expired ∧
    PacketError.packetReceiveTimeout.kind = ErrorKind.Expired := by
  refine ⟨?_, ?_, ?_, ?_, rfl, rfl⟩
  · cases hr : SendPacket k ctx p with
    | ok s' v =>
      obtain ⟨_, _, _, _, _, cs, -, -, -, -, -, -, -, -, -, hlt, -, -⟩ := SendPacket_ok_inv hr
      rw [h0] at hlt
      exact absurd hlt (Nat.not_lt_zero _)
    | error s' e => rfl
    | fault f => rfl
  · cases hr : RecvPacket k ctx p proof proofHeight ack with
    | ok s' v =>
      obtain ⟨_, _, hpre⟩ := RecvPacket_ok_inv hr
      have hlt := hpre.not_expired
      rw [h0] at hlt
      exact absurd hlt (Nat.not_lt_zero _)
    | error s' e => rfl
    | fault f => rfl
  · intro ch conn cs hr
    obtain ⟨hch, hst, hcap, hdp, hdc, hhop, hcs, hcons⟩ := hr
    obtain ⟨cap, hcap⟩ := Option.isSome_iff_exists.mp hcap
    cases hh : ch.ConnectionHops with
    | nil => simp [hh] at hhop
    | cons hop rest =>
      simp only [hh, List.head?, Option.bind] at hhop
      unfold SendPacket
      simp only [GetChannel, GetChannelCapability, GetConnection, GetConsensusState, hch, hst,
        hcap, ← hdp, ← hdc, hh, hhop, hcs, hcons, h0, ne_eq, not_true_eq_false, if_false,
        ge_iff_le, Nat.zero_le, if_true]
  · intro ch conn hr
    obtain ⟨hch, hst, hcap, hsp, hsc, hhop, hco⟩ := hr
    obtain ⟨cap, hcap⟩ := Option.isSome_iff_exists.mp hcap
    cases hh : ch.ConnectionHops with
    | nil => simp [hh] at hhop
    | cons hop rest =>
      simp only [hh, List.head?, Option.bind] at hhop
      unfold RecvPacket
      simp only [GetChannel, GetChannelCapability, GetConnection, hch, hst, hcap, ← hsp, ← hsc,
        hh, hhop, hco, h0, ne_eq, not_true_eq_false, if_false, ge_iff_le, Nat.zero_le, if_true]

/-- The hypothesis of C14 holds of a concrete packet with timeout height 0,
and the theorem applies there. -/
theorem C14_timeout_zero_always_expired_witness :
    (exPacketTimeoutZero 1 [1, 2]).TimeoutHeight = 0 ∧
    (SendPacket acceptAll ⟨5, exSource Order.ORDERED 1⟩ (exPacketTimeoutZero 1 [1, 2])).isOk =
      false ∧
    (RecvPacket acceptAll ⟨5, exDest Order.ORDERED (some 1)⟩ (exPacketTimeoutZero 1 [1, 2])
      [] 7 []).isOk = false :=
  ⟨rfl,
    (C14_timeout_zero_always_expired acceptAll ⟨5, exSource Order.ORDERED 1⟩
      (exPacketTimeoutZero 1 [1, 2]) [] 7 [] rfl).1,
    (C14_timeout_zero_always_expired acceptAll ⟨5, exDest Order.ORDERED (some 1)⟩
      (exPacketTimeoutZero 1 [1, 2]) [] 7 [] rfl).2.1⟩

/-- C14 fails as claimed: with every other precondition holding (the same
calls succeed with timeout height 100), `SendPacket` rejects the packet of
timeout height 0 with "invalid height" and `RecvPacket` rejects it with
"packet receive timeout", at block height 0 and consensus height 0 as well. -/
theorem C14_timeout_zero_counterexample :
    (exPacketTimeoutZero 1 [1, 2]).TimeoutHeight = 0 ∧
    (SendPacket acceptAll ⟨5, exSource Order.ORDERED 1⟩ (exPacket 1 [1, 2])).isOk = true ∧
    SendPacket acceptAll ⟨5, exSource Order.ORDERED 1⟩ (exPacketTimeoutZero 1 [1, 2]) =
      Outcome.error (exSource Order.ORDERED 1) PacketError.invalidHeight ∧
    SendPacket acceptAll
        ⟨0, { exSource Order.ORDERED 1 with consensusStates := fun _ => some ⟨0⟩ }⟩
        (exPacketTimeoutZero 1 [1, 2]) =
      Outcome.error { exSource Order.ORDERED 1 with consensusStates := fun _ => some ⟨0⟩ }
        PacketError.invalidHeight ∧
    (RecvPacket acceptAll ⟨5, exDest Order.ORDERED (some 1)⟩ (exPacket 1 [1, 2]) [] 7 []).isOk =
      true ∧
    RecvPacket acceptAll ⟨5, exDest Order.ORDERED (some 1)⟩ (exPacketTimeoutZero 1 [1, 2])
        [] 7 [] =
      Outcome.error (exDest Order.ORDERED (some 1)) PacketError.packetReceiveTimeout ∧
    RecvPacket acceptAll ⟨0, exDest Order.ORDERED (some 1)⟩ (exPacketTimeoutZero 1 [1, 2])
        [] 7 [] =
      Outcome.error (exDest Order.ORDERED (some 1)) PacketError.packetReceiveTimeout :=
  ⟨rfl, rfl, rfl, rfl, rfl, rfl, rfl⟩

/-- C15, as the code has it: `RecvPacket` and `CleanupPacket` succeed only on
a channel in state OPEN; `SendPacket` succeeds only on a channel whose state
is not CLOSED. -/
theorem C15_channel_state_gates (k : Keeper) (ctx : Context) (p : Packet) (proof : Proof)
    (proofHeight nextSequenceRecv : Nat) (ack : Bytes) :
    ((SendPacket k ctx p).isOk = true →
      ∃ ch, ctx.store.channels (p.SourcePort, p.SourceChannel) = some ch ∧
        ch.State ≠ ChannelState.CLOSED) ∧
    ((RecvPacket k ctx p proof proofHeight ack).isOk = true →
      ∃ ch, ctx.store.channels (p.SourcePort, p.SourceChannel) = some ch ∧
        ch.State = ChannelState.OPEN) ∧
    ((CleanupPacket k ctx p proof proofHeight nextSequenceRecv ack).isOk = true →
      ∃ ch, ctx.store.channels (p.SourcePort, p.SourceChannel) = some ch ∧
        ch.State = ChannelState.OPEN) := by
  refine ⟨?_, ?_, ?_⟩
  · intro hok
    obtain ⟨s', v, hr⟩ := (Outcome.isOk_iff _).mp hok
    obtain ⟨ch, _, _, _, _, _, hch, hst, -⟩ := SendPacket_ok_inv hr
    exact ⟨ch, hch, hst⟩
  · intro hok
    obtain ⟨s', v, hr⟩ := (Outcome.isOk_iff _).mp hok
    obtain ⟨ch, _, hpre⟩ := RecvPacket_ok_inv hr
    exact ⟨ch, hpre.channel_exists, hpre.channel_open⟩
  · intro hok
    obtain ⟨s', v, hr⟩ := (Outcome.isOk_iff _).mp hok
    obtain ⟨ch, _, _, hreach, -⟩ := CleanupPacket_ok_inv hr
    exact ⟨ch, hreach.channel_exists, hreach.channel_open⟩

/-- The hypotheses inside C15 hold of concrete successful calls, and the
theorem applies there. -/
theorem C15_channel_state_gates_witness :
    (SendPacket acceptAll ⟨5, exSourceCommitted Order.ORDERED 3 2 [1, 2]⟩
      (exPacket 3 [4])).isOk = true ∧
    (CleanupPacket acceptAll ⟨5, exSourceCommitted Order.ORDERED 3 2 [1, 2]⟩ (exPacket 2 [1, 2])
      [] 7 1 []).isOk = true ∧
    (∃ ch, (exSourceCommitted Order.ORDERED 3 2 [1, 2]).channels
        ((exPacket 3 [4]).SourcePort, (exPacket 3 [4]).SourceChannel) = some ch ∧
      ch.State ≠ ChannelState.CLOSED) ∧
    (∃ ch, (exSourceCommitted Order.ORDERED 3 2 [1, 2]).channels
        ((exPacket 2 [1, 2]).SourcePort, (exPacket 2 [1, 2]).SourceChannel) = some ch ∧
      ch.State = ChannelState.OPEN) :=
  ⟨rfl, rfl,
    (C15_channel_state_gates acceptAll ⟨5, exSourceCommitted Order.ORDERED 3 2 [1, 2]⟩
      (exPacket 3 [4]) [] 7 1 []).1 rfl,
    (C15_channel_state_gates acceptAll ⟨5, exSourceCommitted Order.ORDERED 3 2 [1, 2]⟩
      (exPacket 2 [1, 2]) [] 7 1 []).2.2 rfl⟩

/-- C15 fails as claimed: `SendPacket` succeeds on a channel in state INIT and
on one in state TRYOPEN. -/
theorem C15_SendPacket_on_unopened_channel :
    (withChannel (exSource Order.ORDERED 1)
        { exChannel Order.ORDERED with State := ChannelState.INIT }).channels
      ("transfer", "chan-a") = some { exChannel Order.ORDERED with State := ChannelState.INIT } ∧
    (SendPacket acceptAll
      ⟨5, withChannel (exSource Order.ORDERED 1)
        { exChannel Order.ORDERED with State := ChannelState.INIT }⟩
      (exPacket 1 [1, 2])).isOk = true ∧
    (SendPacket acceptAll
      ⟨5, withChannel (exSource Order.ORDERED 1)
        { exChannel Order.ORDERED with State := ChannelState.TRYOPEN }⟩
      (exPacket 1 [1, 2])).isOk = true :=
  ⟨rfl, rfl, rfl⟩

/-- Among the statements of `SendPacket` itself (the store accessors are taken
to return), the one fault is the index fault on a channel without connection
hops. -/
theorem SendPacket_fault_inv {k : Keeper} {ctx : Context} {p : Packet} {f : Fault}
    (h : SendPacket k ctx p = Outcome.fault f) :
    f = Fault.indexOutOfRange ∧
    ∃ ch, ctx.store.channels (p.SourcePort, p.SourceChannel) = some ch ∧
      ch.ConnectionHops = [] := by
  unfold SendPacket at h
  simp only [GetChannel, GetChannelCapability, GetConnection, GetConsensusState,
    GetNextSequenceSend] at h
  repeat' split at h
  all_goals cases h
  exact ⟨rfl, _, ‹_›, ‹_›⟩

/-- Among the statements of `CleanupPacket` itself (the store accessors and
the verifier are taken to return), the faults are the index fault on a channel
without connection hops and the ordering fault on a channel whose ordering is
neither ORDERED nor UNORDERED. -/
theorem CleanupPacket_fault_inv {k : Keeper} {ctx : Context} {p : Packet} {proof : Proof}
    {proofHeight nextSequenceRecv : Nat} {ack : Bytes} {f : Fault}
    (h : CleanupPacket k ctx p proof proofHeight nextSequenceRecv ack = Outcome.fault f) :
    ∃ ch, ctx.store.channels (p.SourcePort, p.SourceChannel) = some ch ∧
      ((f = Fault.indexOutOfRange ∧ ch.ConnectionHops = []) ∨
       (f = Fault.invalidChannelOrderingType ∧ ch.Ordering ≠ Order.ORDERED ∧
        ch.Ordering ≠ Order.UNORDERED ∧ ch.ConnectionHops ≠ [])) := by
  unfold CleanupPacket at h
  simp only [GetChannel, GetChannelCapability, GetConnection] at h
  repeat' split at h
  all_goals cases h
  · exact ⟨_, ‹_›, Or.inl ⟨rfl, ‹_›⟩⟩
  · rename_i ch hch _ _ _ _ _ _ _ _ hhops _ _ _ _ _ _ _ hord
    refine ⟨ch, hch, Or.inr ⟨rfl, ?_, ?_, ?_⟩⟩
    · rw [hord]; decide
    · rw [hord]; decide
    · rw [hhops]; exact List.cons_ne_nil _ _

/-- Among the statements of `RecvPacket` itself (the store accessors and the
verifier are taken to return), the one fault is the index fault on a channel
without connection hops. -/
theorem RecvPacket_fault_inv {k : Keeper} {ctx : Context} {p : Packet} {proof : Proof}
    {proofHeight : Nat} {ack : Bytes} {f : Fault}
    (h : RecvPacket k ctx p proof proofHeight ack = Outcome.fault f) :
    f = Fault.indexOutOfRange ∧
    ∃ ch, ctx.store.channels (p.SourcePort, p.SourceChannel) = some ch ∧
      ch.ConnectionHops = [] := by
  have h0 := h
  unfold RecvPacket at h
  simp only [GetChannel, GetChannelCapability, GetConnection] at h
  cases hch : ctx.store.channels (p.SourcePort, p.SourceChannel) with
  | none => rw [hch] at h; cases h
  | some ch =>
    rw [hch] at h
    simp only [] at h
    by_cases hst : ch.State = ChannelState.OPEN
    swap
    · rw [if_pos hst] at h; cases h
    rw [if_neg (not_not.mpr hst)] at h
    cases hcap : ctx.store.capabilities (p.SourcePort, p.SourceChannel) with
    | none => rw [hcap] at h; cases h
    | some cap =>
      rw [hcap] at h
      simp only [] at h
      by_cases hsp : p.SourcePort = ch.Counterparty.PortID
      swap
      · rw [if_pos hsp] at h; cases h
      rw [if_neg (not_not.mpr hsp)] at h
      by_cases hsc : p.SourceChannel = ch.Counterparty.ChannelID
      swap
      · rw [if_pos hsc] at h; cases h
      rw [if_neg (not_not.mpr hsc)] at h
      cases hh : ch.ConnectionHops with
      | nil =>
        rw [hh] at h
        cases h
        exact ⟨rfl, ch, rfl, hh⟩
      | cons hop rest =>
        rw [hh] at h
        simp only [] at h
        cases hconn : ctx.store.connections hop with
        | none => rw [hconn] at h; cases h
        | some conn =>
          rw [hconn] at h
          simp only [] at h
          by_cases hco : conn.State = ConnectionState.OPEN
          swap
          · rw [if_pos hco] at h; cases h
          by_cases hexp : uint64OfInt64 ctx.BlockHeight < p.TimeoutHeight
          swap
          · rw [if_neg (not_not.mpr hco), if_pos (Nat.le_of_not_lt hexp)] at h; cases h
          by_cases hv : k.VerifyMembership conn proofHeight proof
              (Path.ChannelPath p.SourcePort p.SourceChannel) p.Data = true
          swap
          · rw [if_neg (not_not.mpr hco), if_neg (Nat.not_le.mpr hexp), if_pos hv] at h; cases h
          have hpre : RecvPreconditions k ctx p proof proofHeight ch conn :=
            ⟨hch, hst, by simp [hcap], hsp, hsc, by simp [hh, hconn], hco, hexp, hv⟩
          rw [RecvPacket_of_pre ack hpre] at h0
          by_cases hord : ch.Ordering = Order.ORDERED
          · rw [if_pos hord] at h0
            cases hn : ctx.store.nextSequenceRecv (p.DestPort, p.DestChannel) with
            | none => rw [hn] at h0; cases h0
            | some n =>
              rw [hn] at h0
              simp only [] at h0
              by_cases hseq : p.Sequence = n
              · rw [if_neg (not_not.mpr hseq)] at h0; cases h0
              · rw [if_pos hseq] at h0; cases h0
          · rw [if_neg hord] at h0; cases h0

/-- C16, as the code has it: the operations are not total.  On a stored
channel whose connection hops are empty each of the three faults at
`ConnectionHops[0]` as soon as the checks before its connection lookup pass,
and `CleanupPacket` faults at its ordering branch on a channel whose ordering
is neither ORDERED nor UNORDERED. -/
theorem C16_fault_sites (k : Keeper) (ctx : Context) (p : Packet) (proof : Proof)
    (proofHeight nextSequenceRecv : Nat) (ack : Bytes) (ch : Channel)
    (hch : ctx.store.channels (p.SourcePort, p.SourceChannel) = some ch)
    (hcap : (ctx.store.capabilities (p.SourcePort, p.SourceChannel)).isSome = true) :
    (ch.ConnectionHops = [] → ch.State ≠ ChannelState.CLOSED →
      p.DestPort = ch.Counterparty.PortID → p.DestChannel = ch.Counterparty.ChannelID →
      SendPacket k ctx p = Outcome.fault Fault.indexOutOfRange) ∧
    (ch.ConnectionHops = [] → ch.State = ChannelState.OPEN →
      p.SourcePort = ch.Counterparty.PortID → p.SourceChannel = ch.Counterparty.ChannelID →
      RecvPacket k ctx p proof proofHeight ack = Outcome.fault Fault.indexOutOfRange) ∧
    (ch.ConnectionHops = [] → ch.State = ChannelState.OPEN →
      p.DestChannel = ch.Counterparty.ChannelID →
      CleanupPacket k ctx p proof proofHeight nextSequenceRecv ack =
        Outcome.fault Fault.indexOutOfRange) ∧
    (∀ conn, CleanupReaches ctx p nextSequenceRecv ch conn →
      GetPacketCommitment ctx p.SourcePort p.SourceChannel p.Sequence = p.Data →
      ch.Ordering ≠ Order.ORDERED → ch.Ordering ≠ Order.UNORDERED →
      CleanupPacket k ctx p proof proofHeight nextSequenceRecv ack =
        Outcome.fault Fault.invalidChannelOrderingType) := by
  obtain ⟨cap, hcap⟩ := Option.isSome_iff_exists.mp hcap
  refine ⟨?_, ?_, ?_, ?_⟩
  · intro hh hst hdp hdc
    unfold SendPacket
    simp only [GetChannel, GetChannelCapability, hch, hst, hcap, ← hdp, ← hdc, hh, ne_eq,
      not_true_eq_false, if_false]
  · intro hh hst hsp hsc
    unfold RecvPacket
    simp only [GetChannel, GetChannelCapability, hch, hst, hcap, ← hsp, ← hsc, hh, ne_eq,
      not_true_eq_false, if_false]
  · intro hh hst hdc
    unfold CleanupPacket
    simp only [GetChannel, GetChannelCapability, hch, hst, hcap, ← hdc, hh, ne_eq,
      not_true_eq_false, if_false]
  · intro conn hreach hcm ho1 ho2
    rw [CleanupPacket_of_reaches hreach, if_neg (not_not.mpr hcm)]
    cases ho : ch.Ordering with
    | ORDERED => exact absurd ho ho1
    | UNORDERED => exact absurd ho ho2
    | INVALID => rfl

/-- The hypotheses of C16 hold of a concrete send on a channel without
connection hops, and the theorem applies there. -/
theorem C16_fault_sites_witness :
    (withChannel (exSource Order.ORDERED 1)
        { exChannel Order.ORDERED with ConnectionHops := [] }).channels
      ((exPacket 1 [1, 2]).SourcePort, (exPacket 1 [1, 2]).SourceChannel) =
      some { exChannel Order.ORDERED with ConnectionHops := [] } ∧
    ((withChannel (exSource Order.ORDERED 1)
        { exChannel Order.ORDERED with ConnectionHops := [] }).capabilities
      ((exPacket 1 [1, 2]).SourcePort, (exPacket 1 [1, 2]).SourceChannel)).isSome = true ∧
    SendPacket acceptAll
        ⟨5, withChannel (exSource Order.ORDERED 1)
          { exChannel Order.ORDERED with ConnectionHops := [] }⟩ (exPacket 1 [1, 2]) =
      Outcome.fault Fault.indexOutOfRange ∧
    CleanupPacket acceptAll
        ⟨5, withChannel (exSourceCommitted Order.ORDERED 3 2 [1, 2]) (exChannel Order.INVALID)⟩
        (exPacket 2 [1, 2]) [] 7 1 [] =
      Outcome.fault Fault.invalidChannelOrderingType :=
  ⟨rfl, rfl,
    (C16_fault_sites acceptAll
      ⟨5, withChannel (exSource Order.ORDERED 1)
        { exChannel Order.ORDERED with ConnectionHops := [] }⟩ (exPacket 1 [1, 2]) [] 7 0 []
      { exChannel Order.ORDERED with ConnectionHops := [] } rfl rfl).1 rfl (by decide) rfl rfl,
    (C16_fault_sites acceptAll
      ⟨5, withChannel (exSourceCommitted Order.ORDERED 3 2 [1, 2]) (exChannel Order.INVALID)⟩
      (exPacket 2 [1, 2]) [] 7 1 [] (exChannel Order.INVALID) rfl rfl).2.2.2 exSourceConnection
      ⟨rfl, rfl, rfl, rfl, rfl, rfl, by decide⟩ rfl (by decide) (by decide)⟩

/-- C16 fails as claimed: on a stored channel whose connection hops are empty
each of the three operations faults with the index fault. -/
theorem C16_fault_on_empty_connection_hops :
    ({ exChannel Order.ORDERED with ConnectionHops := [] } : Channel).ConnectionHops = [] ∧
    SendPacket acceptAll
        ⟨5, withChannel (exSource Order.ORDERED 1)
          { exChannel Order.ORDERED with ConnectionHops := [] }⟩ (exPacket 1 [1, 2]) =
      Outcome.fault Fault.indexOutOfRange ∧
    RecvPacket acceptAll
        ⟨5, withChannel (exDest Order.ORDERED (some 1))
          { exDestChannel Order.ORDERED with ConnectionHops := [] }⟩ (exPacket 1 [1, 2])
        [] 7 [] =
      Outcome.fault Fault.indexOutOfRange ∧
    CleanupPacket acceptAll
        ⟨5, withChannel (exSourceCommitted Order.ORDERED 3 2 [1, 2])
          { exChannel Order.ORDERED with ConnectionHops := [] }⟩ (exPacket 2 [1, 2])
        [] 7 1 [] =
      Outcome.fault Fault.indexOutOfRange :=
  ⟨rfl, rfl, rfl, rfl⟩

/-- C18, as the code has it: after the channel, its state and the capability,
`CleanupPacket` checks the destination channel, then looks up the first-hop
connection, then checks the destination port, and reports the first check
that fails.  A differing destination port gives the "invalid packet
destination port" error when the destination channel matches and the first
hop names a stored connection; a differing destination channel gives the
"invalid packet destination channel" error; a matching destination channel
with a first hop that names no stored connection gives "connection not
found". -/
theorem C18_CleanupPacket_check_order (k : Keeper) (ctx : Context) (p : Packet) (proof : Proof)
    (proofHeight nextSequenceRecv : Nat) (ack : Bytes) (ch : Channel)
    (hch : ctx.store.channels (p.SourcePort, p.SourceChannel) = some ch)
    (hst : ch.State = ChannelState.OPEN)
    (hcap : (ctx.store.capabilities (p.SourcePort, p.SourceChannel)).isSome = true) :
    (p.DestChannel ≠ ch.Counterparty.ChannelID →
      CleanupPacket k ctx p proof proofHeight nextSequenceRecv ack =
        Outcome.error ctx.store PacketError.invalidPacketDestinationChannel) ∧
    (∀ hop rest, p.DestChannel = ch.Counterparty.ChannelID → ch.ConnectionHops = hop :: rest →
      ctx.store.connections hop = none →
      CleanupPacket k ctx p proof proofHeight nextSequenceRecv ack =
        Outcome.error ctx.store PacketError.connectionNotFound) ∧
    (∀ hop rest conn, p.DestChannel = ch.Counterparty.ChannelID →
      ch.ConnectionHops = hop :: rest → ctx.store.connections hop = some conn →
      p.DestPort ≠ ch.Counterparty.PortID →
      CleanupPacket k ctx p proof proofHeight nextSequenceRecv ack =
        Outcome.error ctx.store PacketError.invalidPacketDestinationPort) ∧
    PacketError.invalidPacketDestinationPort.kind = ErrorKind.Mismatch ∧
    PacketError.invalidPacketDestinationChannel.kind = ErrorKind.Mismatch ∧
    PacketError.connectionNotFound.kind = ErrorKind.NotFound := by
  obtain ⟨cap, hcap⟩ := Option.isSome_iff_exists.mp hcap
  refine ⟨?_, ?_, ?_, rfl, rfl, rfl⟩
  · intro hdc
    unfold CleanupPacket
    simp only [GetChannel, GetChannelCapability, hch, hst, hcap, ne_eq, not_true_eq_false,
      if_false]
    rw [if_pos hdc]
  · intro hop rest hdc hh hconn
    unfold CleanupPacket
    simp only [GetChannel, GetChannelCapability, GetConnection, hch, hst, hcap, ← hdc, hh, hconn,
      ne_eq, not_true_eq_false, if_false]
  · intro hop rest conn hdc hh hconn hdp
    unfold CleanupPacket
    simp only [GetChannel, GetChannelCapability, GetConnection, hch, hst, hcap, ← hdc, hh, hconn,
      ne_eq, not_true_eq_false, if_false]
    rw [if_pos hdp]

/-- The hypotheses of C18 hold of a concrete cleanup with a wrong destination
port, and the theorem applies there. -/
theorem C18_CleanupPacket_check_order_witness :
    (exSourceCommitted Order.ORDERED 3 2 [1, 2]).channels
        ((exPacketWrongPort 2 [1, 2]).SourcePort, (exPacketWrongPort 2 [1, 2]).SourceChannel) =
      some (exChannel Order.ORDERED) ∧
    (exChannel Order.ORDERED).State = ChannelState.OPEN ∧
    ((exSourceCommitted Order.ORDERED 3 2 [1, 2]).capabilities
        ((exPacketWrongPort 2 [1, 2]).SourcePort,
          (exPacketWrongPort 2 [1, 2]).SourceChannel)).isSome = true ∧
    (exPacketWrongPort 2 [1, 2]).DestPort ≠ (exChannel Order.ORDERED).Counterparty.PortID ∧
    CleanupPacket acceptAll ⟨5, exSourceCommitted Order.ORDERED 3 2 [1, 2]⟩
        (exPacketWrongPort 2 [1, 2]) [] 7 1 [] =
      Outcome.error (exSourceCommitted Order.ORDERED 3 2 [1, 2])
        PacketError.invalidPacketDestinationPort :=
  ⟨rfl, rfl, rfl, by decide,
    (C18_CleanupPacket_check_order acceptAll ⟨5, exSourceCommitted Order.ORDERED 3 2 [1, 2]⟩
      (exPacketWrongPort 2 [1, 2]) [] 7 1 [] (exChannel Order.ORDERED) rfl rfl rfl).2.2.1
      "conn-0" [] exSourceConnection rfl rfl rfl (by decide)⟩

/-- C18 fails as claimed: the channel exists, is OPEN and has a capability
marker, the destination port differs from the counterparty port, and the
first hop names no stored connection; the call fails with "connection not
found", a NotFound error, and not with the destination-port mismatch. -/
theorem C18_port_mismatch_reported_as_connection_not_found :
    (exSourceNoConnection Order.ORDERED 3 2 [1, 2]).channels ("transfer", "chan-a") =
      some (exChannel Order.ORDERED) ∧
    (exChannel Order.ORDERED).State = ChannelState.OPEN ∧
    ((exSourceNoConnection Order.ORDERED 3 2 [1, 2]).capabilities
      ("transfer", "chan-a")).isSome = true ∧
    (exPacketWrongPort 2 [1, 2]).DestPort ≠ (exChannel Order.ORDERED).Counterparty.PortID ∧
    CleanupPacket acceptAll ⟨5, exSourceNoConnection Order.ORDERED 3 2 [1, 2]⟩
        (exPacketWrongPort 2 [1, 2]) [] 7 1 [] =
      Outcome.error (exSourceNoConnection Order.ORDERED 3 2 [1, 2])
        PacketError.connectionNotFound ∧
    PacketError.connectionNotFound.kind ≠ ErrorKind.Mismatch :=
  ⟨rfl, rfl, rfl, by decide, rfl, by decide⟩


end IBC

namespace Staking

/-- The method `Equal` returns true on every pair of records. -/
theorem ConsPubKeyRotationHistory.Equal_eq_true (a b : ConsPubKeyRotationHistory) :
    a.Equal b = true := rfl

/-- C17: `ConsPubKeyRotationHistory.Equal` does not check equality.  It
returns true on two records that differ in their height, in their operator
address, and in their keys. -/
theorem C17_Equal_true_on_different_records :
    exHistory ≠ { exHistory with Height := 11 } ∧
    exHistory.Equal { exHistory with Height := 11 } = true ∧
    exHistory.Equal { exHistory with OperatorAddress := "other" } = true ∧
    exHistory.Equal { exHistory with OldConsPubKey := none, NewConsPubKey := none } = true :=
  ⟨by decide, rfl, rfl, rfl⟩

/-- With a non-nil old key, the old-key field of the record is the packing of
the new key. -/
theorem NewConsPubKeyRotationHistory_old_field (c : Codec) (valAddr : ValAddress)
    (oldKey newKey : PubKey) (height : Nat) (packed : Any)
    (hnew : c.NewAnyWithValue (some newKey) = Except.ok packed) :
    NewConsPubKeyRotationHistory c valAddr (some oldKey) (some newKey) height =
      Except.ok { OperatorAddress := c.ValAddressString valAddr,
                  OldConsPubKey := some packed,
                  NewConsPubKey := some packed,
                  Height := height } := by
  simp [NewConsPubKeyRotationHistory, hnew]

/-- With a non-nil old key and a nil new key, the call returns the error of
packing the nil key, or a record whose old-key field is the packing of the nil
key and whose new-key field is nil. -/
theorem NewConsPubKeyRotationHistory_nil_new (c : Codec) (valAddr : ValAddress)
    (oldKey : PubKey) (height : Nat) :
    NewConsPubKeyRotationHistory c valAddr (some oldKey) none height =
      match c.NewAnyWithValue none with
      | Except.error err => Except.error err
      | Except.ok packed =>
        Except.ok { OperatorAddress := c.ValAddressString valAddr,
                    OldConsPubKey := some packed,
                    NewConsPubKey := none,
                    Height := height } := by
  unfold NewConsPubKeyRotationHistory
  cases c.NewAnyWithValue none <;> simp

/-- C20: `NewConsPubKeyRotationHistory` does not record the old key.  With two
different keys whose packings succeed and differ, the address, the height and
the new-key field are as given, and the old-key field holds the packing of the
new key; with a non-nil old key and a nil new key the call returns the packing
error of the nil key and no record. -/
theorem C20_old_key_field_holds_new_key :
    exCodec.NewAnyWithValue (some exOldKey) = Except.ok ⟨"/ed25519", [1, 1, 1]⟩ ∧
    exCodec.NewAnyWithValue (some exNewKey) = Except.ok ⟨"/ed25519", [2, 2, 2]⟩ ∧
    NewConsPubKeyRotationHistory exCodec [7] (some exOldKey) (some exNewKey) 10 =
      Except.ok { OperatorAddress := "cosmosvaloper",
                  OldConsPubKey := some ⟨"/ed25519", [2, 2, 2]⟩,
                  NewConsPubKey := some ⟨"/ed25519", [2, 2, 2]⟩,
                  Height := 10 } ∧
    NewConsPubKeyRotationHistory exCodec [7] (some exOldKey) none 10 =
      Except.error ⟨"nil value"⟩ :=
  ⟨rfl, rfl, rfl, rfl⟩

end Staking
